import Mathlib

/-!
# ECG image classification front end

A shallow embedding of the request flow and of the display helpers of the
React front end (`UploadForm.jsx`, `Home.jsx`, `Dashboard.jsx`,
`ResultsDisplay.jsx`, `Results.jsx`, `About.jsx`).

Event handlers become pure functions from the component state and the event
payload to the new state and the ordered list of observable effects (callback
invocations, network calls, file reads).  The network is an explicit
parameter: the way `axios.post` / `axios.get` settles is supplied by the
caller.
-/

namespace ECG

/-! ## JavaScript values -/

/-- A JavaScript number: `NaN`, an infinity, or the finite value
`(-1)^neg * m * 2^e`. -/
inductive JSNumber where
  | nan
  | inf (neg : Bool)
  | fin (neg : Bool) (m : Nat) (e : Int)
  deriving DecidableEq, Repr

/-- A JavaScript value as produced by `JSON.parse` (plus `undefined`).  An
object is the list of its own properties, with distinct keys. -/
inductive JSValue where
  | undefined
  | null
  | bool (b : Bool)
  | number (x : JSNumber)
  | string (s : String)
  | array (xs : List JSValue)
  | object (props : List (String × JSValue))

/-- An exception raised by the JavaScript runtime. -/
inductive JSError where
  | typeError
  deriving DecidableEq, Repr

/-- ToBoolean: `undefined`, `null`, `false`, `0`, `NaN` and the empty string
are falsy, everything else is truthy. -/
def JSValue.truthy : JSValue → Bool
  | .undefined => false
  | .null => false
  | .bool b => b
  | .number .nan => false
  | .number (.inf _) => true
  | .number (.fin _ m _) => m != 0
  | .string s => s != ""
  | .array _ => true
  | .object _ => true

/-- Property read `v.key` for a key that no built-in prototype defines (the
front end reads `detail` and `status`): reading a property of `undefined` or
`null` throws a TypeError, an object yields its own property or `undefined`,
any other value yields `undefined`. -/
def JSValue.get (v : JSValue) (key : String) : Except JSError JSValue :=
  match v with
  | .undefined => .error .typeError
  | .null => .error .typeError
  | .object props =>
    match props.lookup key with
    | some x => .ok x
    | none => .ok .undefined
  | _ => .ok .undefined

/-- The comparison `v === s` against a string literal. -/
def JSValue.strictEqString (v : JSValue) (s : String) : Bool :=
  match v with
  | .string t => t == s
  | _ => false

/-- The operator `a || b`. -/
def JSValue.or (a b : JSValue) : JSValue :=
  if a.truthy then a else b

/-- `String.prototype.startsWith` for a pattern made of ASCII characters. -/
def startsWith (s pat : String) : Bool :=
  pat.toList.isPrefixOf s.toList

/-! ## Numbers -/

/-- The loop behind `log2`, with fuel. -/
def log2Aux : Nat → Nat → Nat
  | 0, _ => 0
  | fuel + 1, n => if n < 2 then 0 else log2Aux fuel (n / 2) + 1

/-- The position of the leading bit of `n` (and `0` for `n = 0`). -/
def log2 (n : Nat) : Nat := log2Aux n n

/-- The integer `k` with `2^k ≤ num / den < 2^(k+1)`, for positive `num` and
`den`. -/
def floorLog2 (num den : Nat) : Int :=
  let k : Int := (log2 num : Int) - (log2 den : Int)
  if den * 2 ^ k.toNat ≤ num * 2 ^ (-k).toNat then k else k - 1

/-- The integer nearest to `num / den`, a tie going to the even one. -/
def roundHalfEven (num den : Nat) : Nat :=
  let q := num / den
  let r := num % den
  if 2 * r < den then q
  else if den < 2 * r then q + 1
  else if q % 2 = 0 then q else q + 1

/-- The binary64 number nearest to `(-1)^neg * num / den` (round to nearest,
ties to even): a 53-bit significand, exponents no lower than `-1074`
(subnormal numbers), and an infinity past the largest finite number
`(2^53 - 1) * 2^971`. -/
def roundToDouble (neg : Bool) (num den : Nat) : JSNumber :=
  if num = 0 then .fin neg 0 0
  else
    let e : Int := max (floorLog2 num den - 52) (-1074)
    let m := roundHalfEven (num * 2 ^ (-e).toNat) (den * 2 ^ e.toNat)
    if 971 < e ∨ (e = 971 ∧ 2 ^ 53 ≤ m) then .inf neg else .fin neg m e

/-- The operator `*` on numbers. -/
def JSNumber.mul : JSNumber → JSNumber → JSNumber
  | .nan, _ => .nan
  | _, .nan => .nan
  | .inf s, .inf t => .inf (xor s t)
  | .inf s, .fin t m _ => if m = 0 then .nan else .inf (xor s t)
  | .fin s m _, .inf t => if m = 0 then .nan else .inf (xor s t)
  | .fin s m e, .fin t n f =>
    roundToDouble (xor s t) (m * n * 2 ^ (e + f).toNat) (2 ^ (-(e + f)).toNat)

/-- The operator `/` on numbers. -/
def JSNumber.div : JSNumber → JSNumber → JSNumber
  | .nan, _ => .nan
  | _, .nan => .nan
  | .inf _, .inf _ => .nan
  | .inf s, .fin t _ _ => .inf (xor s t)
  | .fin s _ _, .inf t => .fin (xor s t) 0 0
  | .fin s m e, .fin t n f =>
    if n = 0 then
      if m = 0 then .nan else .inf (xor s t)
    else
      roundToDouble (xor s t) (m * 2 ^ (e - f).toNat) (n * 2 ^ (-(e - f)).toNat)

/-- The comparison `x === 0`: true of both zeros, false of `NaN`. -/
def JSNumber.isZero : JSNumber → Bool
  | .fin _ m _ => m == 0
  | _ => false

/-- The number a decimal literal `num / den` denotes, as in a JSON text. -/
def JSNumber.ofDecimal (num den : Nat) : JSNumber := roundToDouble false num den

/-- The number an integer literal denotes. -/
def JSNumber.ofNat (n : Nat) : JSNumber := roundToDouble false n 1

/-- The exact value of a finite number. -/
def finValue (neg : Bool) (m : Nat) (e : Int) : ℚ :=
  (if neg then -1 else 1) * (m : ℚ) * 2 ^ e

/-- The digits `toFixed` prints for the integer `n` with `f` fraction digits:
the decimal digits of `n`, padded with zeros to `f + 1` digits, a point before
the last `f`. -/
def toFixedDigits (n f : Nat) : String :=
  let m := (Nat.repr n).toList
  let m := List.replicate (f + 1 - m.length) '0' ++ m
  if f = 0 then String.mk m
  else String.mk (m.take (m.length - f) ++ '.' :: m.drop (m.length - f))

/-- The integer `n` for which `n / 10^f` is nearest to `num / den`, the
larger one on a tie. -/
def nearestScaled (num den f : Nat) : Nat :=
  (2 * num * 10 ^ f + den) / (2 * den)

/-- The method `Number.prototype.toFixed(f)` for `f ≤ 100`.  The result is
`none` for a finite number of magnitude `10^21` or more, where the method
falls back to the exponential form of `Number.prototype.toString`, which is
not modelled. -/
def JSNumber.toFixed (x : JSNumber) (f : Nat) : Option String :=
  match x with
  | .nan => some "NaN"
  | .inf neg => some (if neg then "-Infinity" else "Infinity")
  | .fin neg m e =>
    let num := m * 2 ^ e.toNat
    let den := 2 ^ (-e).toNat
    if 10 ^ 21 * den ≤ num then none
    else
      some ((if neg && m != 0 then "-" else "") ++
        toFixedDigits (nearestScaled num den f) f)

/-! ## UploadForm.jsx -/

/-- A browser `File`: name, MIME type and size in bytes. -/
structure File where
  name : String
  type : String
  size : Nat
  deriving DecidableEq, Repr

/-- What `axios` hands back on success, or attaches to the error it rejects
with when the server answered. -/
structure Response where
  status : Nat
  data : JSValue

/-- The error `axios` rejects with: `response` is set when the server
answered, `request` tells whether `error.request` is set. -/
structure RequestFailure where
  response : Option Response
  request : Bool

/-- How an `axios` call settles. -/
inductive Settled where
  | resolved (response : Response)
  | rejected (error : RequestFailure)

/-- The observable effects of the handlers of `UploadForm`. -/
inductive Effect where
  | preventDefault
  | stopPropagation
  | onError (msg : JSValue)
  | onLoading (loading : Bool)
  | onResultReceived (data : JSValue)
  | readAsDataURL (f : File)
  | clearInput
  | post (url : String) (formData : List (String × File))
      (headers : List (String × String))

/-- The local state of `UploadForm`. -/
structure FormState where
  file : Option File
  preview : Option String
  deriving DecidableEq, Repr

/-- The state `UploadForm` starts in. -/
def FormState.init : FormState := ⟨none, none⟩

/-- The result of running an asynchronous handler: the effects it performed,
in order, and whether it completed or threw. -/
structure Run where
  trace : List Effect
  completion : Except JSError Unit

/-- The constant `API_URL`: `import.meta.env.VITE_API_URL || 'http://localhost:8000'`. -/
def API_URL (env : Option String) : String :=
  match env with
  | some s => if s != "" then s else "http://localhost:8000"
  | none => "http://localhost:8000"

/-- The handler `handleFileChange`, on the file list of the input element. -/
def handleFileChange (st : FormState) (files : List File) :
    FormState × List Effect :=
  match files.head? with
  | none => (st, [])
  | some selectedFile =>
    if !startsWith selectedFile.type "image/" then
      (st, [.onError (.string "Please upload an image file.")])
    else
      ({ st with file := some selectedFile }, [.readAsDataURL selectedFile])

/-- The handler `handleDrop`, on `e.dataTransfer.files`. -/
def handleDrop (st : FormState) (files : Option (List File)) :
    FormState × List Effect :=
  match files with
  | none => (st, [.preventDefault, .stopPropagation])
  | some fs =>
    match fs.head? with
    | none => (st, [.preventDefault, .stopPropagation])
    | some droppedFile =>
      if !startsWith droppedFile.type "image/" then
        (st, [.preventDefault, .stopPropagation,
          .onError (.string "Please upload an image file.")])
      else
        ({ st with file := some droppedFile },
          [.preventDefault, .stopPropagation, .readAsDataURL droppedFile])

/-- The callback `reader.onloadend`, installed by both handlers. -/
def onloadend (st : FormState) (result : String) : FormState :=
  { st with preview := some result }

/-- The handler `handleRemoveFile`; `inputMounted` tells whether
`fileInputRef.current` is set. -/
def handleRemoveFile (_st : FormState) (inputMounted : Bool) :
    FormState × List Effect :=
  (⟨none, none⟩, if inputMounted then [.clearInput] else [])

/-- The body of the `catch` block of `handleSubmit`: the message handed to
`onError`, or the exception the block itself raises. -/
def catchMessage (error : RequestFailure) : Except JSError JSValue :=
  let errorMessage := JSValue.string "An error occurred during classification."
  match error.response with
  | some response =>
    match response.data.get "detail" with
    | .ok detail => .ok (detail.or errorMessage)
    | .error err => .error err
  | none =>
    if error.request then
      .ok (.string "Could not connect to the server. Please try again later.")
    else
      .ok errorMessage

/-- The handler `handleSubmit`.  `axiosPost` tells how the request settles. -/
def handleSubmit (env : Option String) (st : FormState)
    (axiosPost : String → List (String × File) → List (String × String) → Settled) :
    Run :=
  match st.file with
  | none =>
    ⟨[.preventDefault, .onError (.string "Please select a file to upload.")], .ok ()⟩
  | some file =>
    let formData := [("file", file)]
    let url := API_URL env ++ "/predict/"
    let headers := [("Content-Type", "multipart/form-data")]
    let issued : List Effect :=
      [.preventDefault, .onLoading true, .post url formData headers]
    match axiosPost url formData headers with
    | .resolved response => ⟨issued ++ [.onResultReceived response.data], .ok ()⟩
    | .rejected error =>
      match catchMessage error with
      | .ok errorMessage => ⟨issued ++ [.onError errorMessage], .ok ()⟩
      | .error err => ⟨issued, .error err⟩

/-- The request `handleSubmit` issues for `file`. -/
def submitRequest (env : Option String) (file : File) : Effect :=
  .post (API_URL env ++ "/predict/") [("file", file)]
    [("Content-Type", "multipart/form-data")]

/-- The body of the well-formed response of the specification. -/
def sampleBody : JSValue :=
  .object
    [("class", .string "N"),
     ("description", .string "Normal beat"),
     ("confidence", .number (.ofDecimal 945 1000)),
     ("top_predictions", .array
       [.object [("class", .string "N"), ("confidence", .number (.ofDecimal 945 1000))],
        .object [("class", .string "V"), ("confidence", .number (.ofDecimal 3 100))]])]

/-- Whether an effect is a network call. -/
def Effect.isNetworkCall : Effect → Bool
  | .post _ _ _ => true
  | _ => false

/-- The attribute `disabled={!file}` of the submit button. -/
def submitDisabled (st : FormState) : Bool :=
  st.file.isNone

/-- The part of `handleSubmit` that runs before the request is answered (up
to the `await`): its effects, and the request that now awaits an answer, if
one was issued. -/
def handleSubmitStart (env : Option String) (st : FormState) :
    List Effect × Option Effect :=
  match st.file with
  | none =>
    ([.preventDefault, .onError (.string "Please select a file to upload.")], none)
  | some file =>
    ([.preventDefault, .onLoading true, submitRequest env file],
      some (submitRequest env file))

/-- The part of `handleSubmit` that runs once the request has settled. -/
def handleSubmitResume (outcome : Settled) : Run :=
  match outcome with
  | .resolved response => ⟨[.onResultReceived response.data], .ok ()⟩
  | .rejected error =>
    match catchMessage error with
    | .ok errorMessage => ⟨[.onError errorMessage], .ok ()⟩
    | .error err => ⟨[], .error err⟩

/-- The component between two events: its state and the requests that await
an answer, oldest first. -/
structure Session where
  form : FormState
  inFlight : List Effect

/-- An invocation of `handleSubmit`, up to its `await`.  The handler calls
neither `setFile` nor `setPreview`: the form state stays as it is. -/
def Session.submit (env : Option String) (s : Session) : Session × List Effect :=
  match handleSubmitStart env s.form with
  | (effects, some request) => ({ s with inFlight := s.inFlight ++ [request] }, effects)
  | (effects, none) => (s, effects)

/-- The oldest request settles and its `handleSubmit` runs to the end.  The
handler calls neither `setFile` nor `setPreview` here either. -/
def Session.settle (s : Session) (outcome : Settled) : Session × Run :=
  match s.inFlight with
  | [] => (s, ⟨[], .ok ()⟩)
  | _ :: rest => ({ s with inFlight := rest }, handleSubmitResume outcome)

/-- A form with the file `ecg.png` selected and no request outstanding. -/
def sampleSession : Session :=
  ⟨⟨some ⟨"ecg.png", "image/png", 2048⟩, some "data:image/png;base64,AAAA"⟩, []⟩

/-- The session after `n` invocations of `handleSubmit` with none answered. -/
def Session.submitTimes (env : Option String) (s : Session) : Nat → Session
  | 0 => s
  | n + 1 => (Session.submit env (Session.submitTimes env s n)).1

/-- Whether an effect is one of the two outcome callbacks. -/
def Effect.isOutcome : Effect → Bool
  | .onResultReceived _ => true
  | .onError _ => true
  | _ => false

/-- Whether an effect is a call of `onError`. -/
def Effect.isError : Effect → Bool
  | .onError _ => true
  | _ => false

/-- Whether an effect is a call of `onLoading`. -/
def Effect.isLoading : Effect → Bool
  | .onLoading _ => true
  | _ => false

/-- Whether an effect is a call of `onResultReceived`. -/
def Effect.isResult : Effect → Bool
  | .onResultReceived _ => true
  | _ => false

/-! ## Home.jsx -/

/-- The local state of the `Home` page. -/
structure HomeState where
  result : JSValue
  isLoading : Bool
  error : JSValue

/-- The state `Home` starts in. -/
def HomeState.init : HomeState := ⟨.null, false, .null⟩

/-- The callback `handleResultReceived`. -/
def handleResultReceived (h : HomeState) (data : JSValue) : HomeState :=
  { h with result := data, isLoading := false }

/-- The callback `handleError`. -/
def handleError (h : HomeState) (err : JSValue) : HomeState :=
  { h with error := err, isLoading := false }

/-- The callback `handleLoading`. -/
def handleLoading (h : HomeState) (loading : Bool) : HomeState :=
  if loading then
    { h with isLoading := loading, result := .null, error := .null }
  else
    { h with isLoading := loading }

/-- How `Home` wires the callbacks of `UploadForm`: `onResultReceived`,
`onError` and `onLoading` reach the three handlers, other effects leave the
page state alone. -/
def Home.react (h : HomeState) : Effect → HomeState
  | .onResultReceived data => handleResultReceived h data
  | .onError msg => handleError h msg
  | .onLoading loading => handleLoading h loading
  | _ => h

/-- The page state after `Home` has seen a whole trace of effects. -/
def Home.run (h : HomeState) (trace : List Effect) : HomeState :=
  trace.foldl Home.react h

/-- Whether a value is `null`. -/
def JSValue.isNull : JSValue → Bool
  | .null => true
  | _ => false

/-- How many of `isLoading`, `result ≠ null`, `error ≠ null` hold. -/
def HomeState.marks (h : HomeState) : Nat :=
  (if h.isLoading then 1 else 0) + (if h.result.isNull then 0 else 1) +
    (if h.error.isNull then 0 else 1)

/-- The Home page after a successful submission of `ecg.png` followed by the
drop of a file that is not an image. -/
def staleResultState : HomeState :=
  Home.run HomeState.init
    ((handleSubmit none sampleSession.form
        (fun _ _ _ => .resolved ⟨200, sampleBody⟩)).trace ++
      (handleDrop sampleSession.form
        (some [⟨"report.pdf", "application/pdf", 1024⟩])).2)

/-! ## The classification result -/

/-- One entry of `top_predictions`. -/
structure Prediction where
  «class» : String
  description : String
  confidence : JSNumber

/-- The classification payload of `POST /predict/`. -/
structure ClassificationResult where
  «class» : String
  description : String
  confidence : JSNumber
  top_predictions : List Prediction

/-! ## ResultsDisplay.jsx -/

/-- The function `getBadgeClasses`. -/
def getBadgeClasses (classType : String) : String :=
  if classType = "N" then "bg-green-100 text-green-800"
  else if classType = "F" then "bg-blue-100 text-blue-800"
  else if classType = "M" then "bg-red-100 text-red-800"
  else if classType = "Q" then "bg-purple-100 text-purple-800"
  else if classType = "S" then "bg-yellow-100 text-yellow-800"
  else if classType = "V" then "bg-orange-100 text-orange-800"
  else "bg-gray-100 text-gray-800"

/-- The text `{x.toFixed(f)}%`. -/
def percentText (x : JSNumber) (f : Nat) : Option String :=
  (x.toFixed f).map (· ++ "%")

/-- One progress-bar row of `ResultsDisplay`: the badge style and text, the
bar colour, the bar width (the number in front of `%`) and the percentage
text. -/
structure BarRow where
  badge : String
  code : String
  bar : String
  width : JSNumber
  percent : Option String

/-- The row `ResultsDisplay` renders for the prediction at position `index`. -/
def barRow (index : Nat) (pred : Prediction) : BarRow where
  badge := getBadgeClasses pred.class
  code := pred.class
  bar := if index = 0 then "bg-primary-600" else "bg-gray-400"
  width := pred.confidence.mul (.ofNat 100)
  percent := percentText (pred.confidence.mul (.ofNat 100)) 1

/-- The rows `result.top_predictions.map((pred, index) => ...)` of
`ResultsDisplay`. -/
def ResultsDisplay.rows (result : ClassificationResult) : List BarRow :=
  result.top_predictions.enum.map fun p => barRow p.1 p.2

/-- The confidence text `{(result.confidence * 100).toFixed(2)}%` of
`ResultsDisplay`. -/
def ResultsDisplay.confidenceText (result : ClassificationResult) : Option String :=
  percentText (result.confidence.mul (.ofNat 100)) 2

/-! ## Results.jsx -/

/-- The table `chartColors`. -/
def chartColors : List (String × String) :=
  [("F", "rgba(54, 162, 235, 0.7)"),
   ("M", "rgba(255, 99, 132, 0.7)"),
   ("N", "rgba(75, 192, 192, 0.7)"),
   ("Q", "rgba(153, 102, 255, 0.7)"),
   ("S", "rgba(255, 206, 86, 0.7)"),
   ("V", "rgba(255, 159, 64, 0.7)")]

/-- The table `chartBorderColors`. -/
def chartBorderColors : List (String × String) :=
  [("F", "rgba(54, 162, 235, 1)"),
   ("M", "rgba(255, 99, 132, 1)"),
   ("N", "rgba(75, 192, 192, 1)"),
   ("Q", "rgba(153, 102, 255, 1)"),
   ("S", "rgba(255, 206, 86, 1)"),
   ("V", "rgba(255, 159, 64, 1)")]

/-- The pie-chart data set: `none` in a colour array stands for `undefined`. -/
structure ChartData where
  labels : List String
  data : List JSNumber
  backgroundColor : List (Option String)
  borderColor : List (Option String)
  borderWidth : Nat

/-- The text `${pred.class}: ${pred.description}`. -/
def predictionText (pred : Prediction) : String :=
  pred.class ++ ": " ++ pred.description

/-- The constant `chartData`, from the `result` state of the page (`none` is
`null`). -/
def chartData (result : Option ClassificationResult) : Option ChartData :=
  match result with
  | none => none
  | some r =>
    some {
      labels := r.top_predictions.map predictionText
      data := r.top_predictions.map fun pred => pred.confidence.mul (.ofNat 100)
      backgroundColor := r.top_predictions.map fun pred => chartColors.lookup pred.class
      borderColor := r.top_predictions.map fun pred => chartBorderColors.lookup pred.class
      borderWidth := 1 }

/-- One item of the list under the heading Top Predictions on the Results
page. -/
structure ListRow where
  text : String
  percent : Option String

/-- The item the Results page renders for one prediction. -/
def listRow (pred : Prediction) : ListRow where
  text := predictionText pred
  percent := percentText (pred.confidence.mul (.ofNat 100)) 2

/-- The items `result.top_predictions.map((pred, index) => ...)` of the
Results page. -/
def Results.rows (result : ClassificationResult) : List ListRow :=
  result.top_predictions.map listRow

/-- The style of the badge under Primary Classification on the Results page:
the chain of conditionals on `result.class`. -/
def Results.badgeClasses (cls : String) : String :=
  if cls = "N" then "bg-green-100 text-green-800"
  else if cls = "F" then "bg-blue-100 text-blue-800"
  else if cls = "M" then "bg-red-100 text-red-800"
  else if cls = "Q" then "bg-purple-100 text-purple-800"
  else if cls = "S" then "bg-yellow-100 text-yellow-800"
  else "bg-orange-100 text-orange-800"

/-- The text under the heading `What does this mean?` on the Results page. -/
def Results.explanation (cls : String) : String :=
  if cls = "N" then
    "The ECG shows a normal heart rhythm pattern with regular beats and no abnormalities."
  else if cls = "F" then
    "The ECG shows fusion beats, which occur when a normal beat and a ventricular beat happen simultaneously."
  else if cls = "M" then
    "The ECG shows patterns consistent with myocardial infarction (heart attack), indicating damage to the heart muscle."
  else if cls = "Q" then
    "The ECG shows an unclassifiable beat pattern that doesn\x27t fit standard categories."
  else if cls = "S" then
    "The ECG shows supraventricular premature beats, which originate above the ventricles."
  else
    "The ECG shows premature ventricular contractions, which are early beats originating from the ventricles."

/-! ## Rendering an unchecked response body -/

/-- The read `v?.key`, for a key that no built-in prototype defines. -/
def JSValue.getOptional (v : JSValue) (key : String) : JSValue :=
  match v.get key with
  | .ok x => x
  | .error _ => .undefined

/-- The call `v.map(callback)` on a value that came out of `JSON.parse`: an
array is mapped in order, the callback receiving the element and its index;
on `undefined` and `null` the property read throws, and any other value has
no callable `map`. -/
def JSValue.map {β : Type} (v : JSValue) (callback : JSValue → Nat → Except JSError β) :
    Except JSError (List β) :=
  match v with
  | .array xs => xs.enum.mapM fun p => callback p.2 p.1
  | _ => .error .typeError

/-- The component `ResultsDisplay` on an unchecked `result`: `none` when it
renders nothing (`!result`), else the rows of `result.top_predictions.map`,
`row` being the callback of that call.  What the component evaluates before
that call (the badge and the confidence text) throws for no value. -/
def ResultsDisplay.render {β : Type} (row : JSValue → Nat → Except JSError β)
    (result : JSValue) : Except JSError (Option (List β)) :=
  if !result.truthy then .ok none
  else
    match result.get "top_predictions" with
    | .error err => .error err
    | .ok predictions =>
      match predictions.map row with
      | .error err => .error err
      | .ok rows => .ok (some rows)

/-- The page `Results` on an unchecked `result` state: `none` for the
placeholder (`!result`), else the chart data (`none` for `null`) and the
items of the list.  `chart` stands for the callbacks of the four `map` calls
of `chartData`, `row` for the callback of the list. -/
def Results.render {β γ : Type} (chart : JSValue → Nat → Except JSError γ)
    (row : JSValue → Nat → Except JSError β) (result : JSValue) :
    Except JSError (Option (Option (List γ) × List β)) :=
  let predictions := result.getOptional "top_predictions"
  let chartData : Except JSError (Option (List γ)) :=
    if predictions.truthy then
      match predictions.map chart with
      | .error err => .error err
      | .ok data => .ok (some data)
    else .ok none
  match chartData with
  | .error err => .error err
  | .ok data =>
    if !result.truthy then .ok none
    else
      match result.get "top_predictions" with
      | .error err => .error err
      | .ok list =>
        match list.map row with
        | .error err => .error err
        | .ok rows => .ok (some (data, rows))

/-- A result whose three predictions have confidences `0.7`, `0.2`, `0.1`. -/
def sampleResult : ClassificationResult where
  «class» := "N"
  description := "Normal beat"
  confidence := .ofDecimal 7 10
  top_predictions :=
    [⟨"N", "Normal beat", .ofDecimal 7 10⟩,
     ⟨"V", "Premature ventricular contraction", .ofDecimal 2 10⟩,
     ⟨"S", "Supraventricular premature beat", .ofDecimal 1 10⟩]

/-- A result whose predictions are not in descending order of confidence. -/
def unsortedResult : ClassificationResult where
  «class» := "V"
  description := "Premature ventricular contraction"
  confidence := .ofDecimal 7 10
  top_predictions :=
    [⟨"S", "Supraventricular premature beat", .ofDecimal 1 10⟩,
     ⟨"V", "Premature ventricular contraction", .ofDecimal 7 10⟩,
     ⟨"N", "Normal beat", .ofDecimal 2 10⟩]

/-! ## Dashboard.jsx -/

/-- The table `classNames` of `getClassFullName`. -/
def classNames : List (String × String) :=
  [("F", "Fusion of ventricular and normal beat"),
   ("M", "Myocardial infarction"),
   ("N", "Normal beat"),
   ("Q", "Unclassifiable beat"),
   ("S", "Supraventricular premature beat"),
   ("V", "Premature ventricular contraction")]

/-- The function `getClassFullName`: `classNames[classCode] || classCode`,
for a code that is not the name of a property of `Object.prototype`. -/
def getClassFullName (classCode : String) : String :=
  match classNames.lookup classCode with
  | some name => if name != "" then name else classCode
  | none => classCode

/-- The result of `checkApiStatus`: the request it issued and the value it
returned, or the exception it raised. -/
structure StatusRun where
  requests : List String
  result : Except JSError String

/-- The function `checkApiStatus`.  `axiosGet` tells how the request
settles. -/
def checkApiStatus (env : Option String) (axiosGet : String → Settled) : StatusRun :=
  let url := API_URL env ++ "/health"
  match axiosGet url with
  | .resolved response =>
    match response.data.get "status" with
    | .ok status =>
      ⟨[url], .ok (if status.strictEqString "healthy" then "Online" else "Degraded")⟩
    | .error _ => ⟨[url], .ok "Offline"⟩
  | .rejected _ => ⟨[url], .ok "Offline"⟩

/-- The constant `mockClassDistribution`, in the order of its keys. -/
def mockClassDistribution : List (String × Nat) :=
  [("N", 42), ("V", 28), ("F", 15), ("S", 10), ("M", 22), ("Q", 8)]

/-- The value of the `stats` state of the Dashboard. -/
structure Stats where
  totalPredictions : Nat
  classDistribution : List (String × Nat)
  modelAccuracy : JSNumber
  apiStatus : String

/-- The local state of the Dashboard; `none` in `error` stands for `null`. -/
structure DashboardState where
  stats : Stats
  isLoading : Bool
  error : Option String

/-- The state the Dashboard starts in. -/
def DashboardState.init : DashboardState where
  stats := ⟨0, [], .ofNat 0, "Checking..."⟩
  isLoading := true
  error := none

/-- The function `fetchDashboardData`, given the state it starts from:
the state it ends in and the requests it issued.  The `catch` block runs when
`checkApiStatus` throws; the one-second delay always resolves. -/
def fetchDashboardData (env : Option String) (st : DashboardState)
    (axiosGet : String → Settled) : DashboardState × List String :=
  let st : DashboardState := { st with isLoading := true }
  let st : DashboardState := { st with error := none }
  let run := checkApiStatus env axiosGet
  let st : DashboardState :=
    match run.result with
    | .ok apiStatus =>
      { st with stats :=
          { totalPredictions := 125
            classDistribution := mockClassDistribution
            modelAccuracy := .ofDecimal 945 1000
            apiStatus := apiStatus } }
    | .error _ =>
      { st with error := some "Failed to load dashboard data. Please try again later." }
  ({ st with isLoading := false }, run.requests)

/-- The function `calculatePercentage`: the number `0` when `total === 0`,
else the text `((value / total) * 100).toFixed(1)`; `none` where `toFixed` is
not modelled. -/
def calculatePercentage (value total : JSNumber) : Option JSValue :=
  if total.isZero then some (.number (.ofNat 0))
  else (((value.div total).mul (.ofNat 100)).toFixed 1).map JSValue.string

/-- The percentages the Dashboard shows under Class Distribution, one for
each entry of `stats.classDistribution`, in order. -/
def distributionPercentages (stats : Stats) : List (String × Option JSValue) :=
  stats.classDistribution.map fun entry =>
    (entry.1, calculatePercentage (.ofNat entry.2) (.ofNat stats.totalPredictions))

/-! ## About.jsx -/

/-- One entry of `arrhythmiaTypes`. -/
structure ArrhythmiaType where
  code : String
  name : String
  description : String
  color : String
  deriving DecidableEq, Repr

/-- The list `arrhythmiaTypes` of the About page. -/
def arrhythmiaTypes : List ArrhythmiaType :=
  [{ code := "F"
     name := "Fusion of ventricular and normal beat"
     description := "A fusion beat occurs when a normal beat and a ventricular beat happen at approximately the same time."
     color := "bg-blue-100 text-blue-800" },
   { code := "M"
     name := "Myocardial infarction"
     description := "Also known as a heart attack, occurs when blood flow to part of the heart is blocked, causing damage to the heart muscle."
     color := "bg-red-100 text-red-800" },
   { code := "N"
     name := "Normal beat"
     description := "A regular heartbeat pattern with normal conduction and timing."
     color := "bg-green-100 text-green-800" },
   { code := "Q"
     name := "Unclassifiable beat"
     description := "Beats that don\x27t fit into standard classification categories."
     color := "bg-purple-100 text-purple-800" },
   { code := "S"
     name := "Supraventricular premature beat"
     description := "Early beats that originate above the ventricles, usually in the atria."
     color := "bg-yellow-100 text-yellow-800" },
   { code := "V"
     name := "Premature ventricular contraction"
     description := "Early beats that originate from the ventricles of the heart."
     color := "bg-orange-100 text-orange-800" }]

/-! ## Theorems -/

theorem handleSubmit_resolved (env : Option String) (st : FormState) (file : File)
    (axiosPost : String → List (String × File) → List (String × String) → Settled)
    (response : Response) (hfile : st.file = some file)
    (hpost : axiosPost (API_URL env ++ "/predict/") [("file", file)]
      [("Content-Type", "multipart/form-data")] = .resolved response) :
    handleSubmit env st axiosPost =
      ⟨[.preventDefault, .onLoading true, submitRequest env file,
        .onResultReceived response.data], .ok ()⟩ := by
  simp [handleSubmit, hfile, hpost, submitRequest]

theorem handleSubmit_rejected (env : Option String) (st : FormState) (file : File)
    (axiosPost : String → List (String × File) → List (String × String) → Settled)
    (error : RequestFailure) (hfile : st.file = some file)
    (hpost : axiosPost (API_URL env ++ "/predict/") [("file", file)]
      [("Content-Type", "multipart/form-data")] = .rejected error) :
    handleSubmit env st axiosPost =
      match catchMessage error with
      | .ok errorMessage =>
        ⟨[.preventDefault, .onLoading true, submitRequest env file,
          .onError errorMessage], .ok ()⟩
      | .error err =>
        ⟨[.preventDefault, .onLoading true, submitRequest env file], .error err⟩ := by
  simp only [handleSubmit, hfile, hpost, submitRequest]
  cases catchMessage error <;> simp

/-- C1: a selected or dropped file whose MIME type does not start with
`image/` is rejected by `handleFileChange` and by `handleDrop`, whatever its
name and size: `onError` receives the text asking for an image file, the
form state stays as it was and no file read is started. -/
theorem non_image_file_rejected (st : FormState) (f : File) (rest : List File)
    (h : startsWith f.type "image/" = false) :
    handleFileChange st (f :: rest) =
        (st, [.onError (.string "Please upload an image file.")]) ∧
      handleDrop st (some (f :: rest)) =
        (st, [.preventDefault, .stopPropagation,
          .onError (.string "Please upload an image file.")]) := by
  simp [handleFileChange, handleDrop, h]

theorem non_image_file_rejected_witness :
    handleFileChange FormState.init [⟨"report.pdf", "application/pdf", 20000000⟩] =
        (FormState.init, [.onError (.string "Please upload an image file.")]) ∧
      handleDrop FormState.init (some [⟨"report.pdf", "application/pdf", 20000000⟩]) =
        (FormState.init, [.preventDefault, .stopPropagation,
          .onError (.string "Please upload an image file.")]) :=
  non_image_file_rejected FormState.init ⟨"report.pdf", "application/pdf", 20000000⟩ []
    (by decide)

/-- C2: when the POST resolves, `handleSubmit` hands the response body as it
is to `onResultReceived`, and `handleResultReceived` of the Home page stores
that very value as `result`. -/
theorem submit_passes_body_through (env : Option String) (st : FormState) (file : File)
    (axiosPost : String → List (String × File) → List (String × String) → Settled)
    (response : Response) (hfile : st.file = some file)
    (hpost : axiosPost (API_URL env ++ "/predict/") [("file", file)]
      [("Content-Type", "multipart/form-data")] = .resolved response) :
    (handleSubmit env st axiosPost).trace =
        [.preventDefault, .onLoading true, submitRequest env file,
          .onResultReceived response.data] ∧
      (handleSubmit env st axiosPost).completion = .ok () ∧
      ∀ h : HomeState,
        (handleResultReceived h response.data).result = response.data ∧
        (Home.run h (handleSubmit env st axiosPost).trace).result = response.data := by
  rw [handleSubmit_resolved env st file axiosPost response hfile hpost]
  refine ⟨rfl, rfl, fun h => ⟨rfl, ?_⟩⟩
  simp [Home.run, Home.react, submitRequest, handleResultReceived, handleLoading]

theorem submit_passes_body_through_witness :
    (handleSubmit none ⟨some ⟨"ecg.png", "image/png", 2048⟩, none⟩
        (fun _ _ _ => .resolved ⟨200, sampleBody⟩)).trace =
        [.preventDefault, .onLoading true, submitRequest none ⟨"ecg.png", "image/png", 2048⟩,
          .onResultReceived sampleBody] ∧
      (Home.run HomeState.init
        (handleSubmit none ⟨some ⟨"ecg.png", "image/png", 2048⟩, none⟩
          (fun _ _ _ => .resolved ⟨200, sampleBody⟩)).trace).result = sampleBody :=
  have h := submit_passes_body_through none ⟨some ⟨"ecg.png", "image/png", 2048⟩, none⟩
    ⟨"ecg.png", "image/png", 2048⟩ (fun _ _ _ => .resolved ⟨200, sampleBody⟩)
    ⟨200, sampleBody⟩ rfl rfl
  ⟨h.1, (h.2.2 HomeState.init).2⟩

/-- C3: when the POST fails with a server response whose body carries a
non-empty `detail` string, `handleSubmit` calls `onError` with that string,
whether or not the error carries a request as well. -/
theorem server_detail_reported (env : Option String) (st : FormState) (file : File)
    (axiosPost : String → List (String × File) → List (String × String) → Settled)
    (status : Nat) (props : List (String × JSValue)) (detail : String) (request : Bool)
    (hfile : st.file = some file)
    (hpost : axiosPost (API_URL env ++ "/predict/") [("file", file)]
      [("Content-Type", "multipart/form-data")] =
        .rejected ⟨some ⟨status, .object props⟩, request⟩)
    (hdetail : props.lookup "detail" = some (.string detail)) (hne : detail ≠ "") :
    handleSubmit env st axiosPost =
      ⟨[.preventDefault, .onLoading true, submitRequest env file,
        .onError (.string detail)], .ok ()⟩ := by
  rw [handleSubmit_rejected env st file axiosPost _ hfile hpost]
  simp [catchMessage, JSValue.get, hdetail, JSValue.or, JSValue.truthy, hne]

theorem server_detail_reported_witness :
    handleSubmit none ⟨some ⟨"ecg.png", "image/png", 2048⟩, none⟩
        (fun _ _ _ => .rejected
          ⟨some ⟨422, .object [("detail", .string "Invalid image format")]⟩, true⟩) =
      ⟨[.preventDefault, .onLoading true, submitRequest none ⟨"ecg.png", "image/png", 2048⟩,
        .onError (.string "Invalid image format")], .ok ()⟩ :=
  server_detail_reported none ⟨some ⟨"ecg.png", "image/png", 2048⟩, none⟩
    ⟨"ecg.png", "image/png", 2048⟩ _ 422 [("detail", .string "Invalid image format")]
    "Invalid image format" true rfl rfl rfl (by decide)

/-- C4: when the POST fails with no response but with a request,
`handleSubmit` calls `onError` with the text saying that the server could not
be reached. -/
theorem no_response_reported (env : Option String) (st : FormState) (file : File)
    (axiosPost : String → List (String × File) → List (String × String) → Settled)
    (hfile : st.file = some file)
    (hpost : axiosPost (API_URL env ++ "/predict/") [("file", file)]
      [("Content-Type", "multipart/form-data")] = .rejected ⟨none, true⟩) :
    handleSubmit env st axiosPost =
      ⟨[.preventDefault, .onLoading true, submitRequest env file,
        .onError (.string "Could not connect to the server. Please try again later.")],
        .ok ()⟩ := by
  rw [handleSubmit_rejected env st file axiosPost _ hfile hpost]
  simp [catchMessage]

theorem no_response_reported_witness :
    handleSubmit none ⟨some ⟨"ecg.png", "image/png", 2048⟩, none⟩
        (fun _ _ _ => .rejected ⟨none, true⟩) =
      ⟨[.preventDefault, .onLoading true, submitRequest none ⟨"ecg.png", "image/png", 2048⟩,
        .onError (.string "Could not connect to the server. Please try again later.")],
        .ok ()⟩ :=
  no_response_reported none ⟨some ⟨"ecg.png", "image/png", 2048⟩, none⟩
    ⟨"ecg.png", "image/png", 2048⟩ _ rfl rfl

/-- The generic message is what `onError` receives when the error has neither
a response nor a request, and when the body of the response is neither `null`
nor `undefined` and its `detail` is missing or falsy. -/
theorem catchMessage_generic (error : RequestFailure)
    (h : (error.response = none ∧ error.request = false) ∨
      ∃ response detail, error.response = some response ∧
        response.data.get "detail" = .ok detail ∧ detail.truthy = false) :
    catchMessage error = .ok (.string "An error occurred during classification.") := by
  rcases h with ⟨h1, h2⟩ | ⟨response, detail, h1, h2, h3⟩
  · simp [catchMessage, h1, h2]
  · simp [catchMessage, h1, h2, JSValue.or, h3]

/-- C5: a failed POST whose response body is `null` is a failure with no
`detail` at all, yet `handleSubmit` does not call `onError` with the generic
message: reading `detail` throws inside the `catch` block, the handler ends
with a TypeError after the request, no callback follows `onLoading(true)`,
and the Home page is left loading with no error. -/
theorem null_body_failure_unreported :
    handleSubmit none ⟨some ⟨"ecg.png", "image/png", 2048⟩, none⟩
        (fun _ _ _ => .rejected ⟨some ⟨500, .null⟩, true⟩) =
        ⟨[.preventDefault, .onLoading true,
          submitRequest none ⟨"ecg.png", "image/png", 2048⟩], .error .typeError⟩ ∧
      (Home.run HomeState.init
        (handleSubmit none ⟨some ⟨"ecg.png", "image/png", 2048⟩, none⟩
          (fun _ _ _ => .rejected ⟨some ⟨500, .null⟩, true⟩)).trace).isLoading = true ∧
      (Home.run HomeState.init
        (handleSubmit none ⟨some ⟨"ecg.png", "image/png", 2048⟩, none⟩
          (fun _ _ _ => .rejected ⟨some ⟨500, .null⟩, true⟩)).trace).error.truthy = false := by
  refine ⟨rfl, rfl, rfl⟩

/-- C6: `checkApiStatus` returns `Online` when the body of the health response
has `status` equal to the string `healthy`, `Degraded` when the request
succeeds with any other status string, `Offline` when the request fails; it
never throws and returns one of these three values. -/
theorem checkApiStatus_three_values (env : Option String) (axiosGet : String → Settled) :
    (∀ status props, axiosGet (API_URL env ++ "/health") = .resolved ⟨status, .object props⟩ →
        props.lookup "status" = some (.string "healthy") →
        (checkApiStatus env axiosGet).result = .ok "Online") ∧
      (∀ status props s,
        axiosGet (API_URL env ++ "/health") = .resolved ⟨status, .object props⟩ →
        props.lookup "status" = some (.string s) → s ≠ "healthy" →
        (checkApiStatus env axiosGet).result = .ok "Degraded") ∧
      (∀ error, axiosGet (API_URL env ++ "/health") = .rejected error →
        (checkApiStatus env axiosGet).result = .ok "Offline") ∧
      ((checkApiStatus env axiosGet).result = .ok "Online" ∨
        (checkApiStatus env axiosGet).result = .ok "Degraded" ∨
        (checkApiStatus env axiosGet).result = .ok "Offline") := by
  refine ⟨?_, ?_, ?_, ?_⟩
  · intro status props hget hstatus
    simp [checkApiStatus, hget, JSValue.get, hstatus, JSValue.strictEqString]
  · intro status props s hget hstatus hne
    simp [checkApiStatus, hget, JSValue.get, hstatus, JSValue.strictEqString, hne]
  · intro error hget
    simp [checkApiStatus, hget]
  · cases hget : axiosGet (API_URL env ++ "/health") with
    | rejected error => simp [checkApiStatus, hget]
    | resolved response =>
      cases hstatus : response.data.get "status" with
      | error err => simp [checkApiStatus, hget, hstatus]
      | ok v =>
        by_cases hv : v.strictEqString "healthy" = true <;>
          simp [checkApiStatus, hget, hstatus, hv]

theorem checkApiStatus_three_values_witness :
    (checkApiStatus none
        (fun _ => .resolved ⟨200, .object [("status", .string "healthy")]⟩)).result =
        .ok "Online" ∧
      (checkApiStatus none
        (fun _ => .resolved ⟨200, .object [("status", .string "degraded")]⟩)).result =
        .ok "Degraded" ∧
      (checkApiStatus none (fun _ => .rejected ⟨none, true⟩)).result = .ok "Offline" ∧
      (checkApiStatus none
        (fun _ => .rejected ⟨some ⟨503, .object [("detail", .string "down")]⟩, true⟩)).result =
        .ok "Offline" :=
  ⟨(checkApiStatus_three_values none _).1 200 [("status", .string "healthy")] rfl rfl,
   (checkApiStatus_three_values none _).2.1 200 [("status", .string "degraded")] "degraded"
     rfl rfl (by decide),
   (checkApiStatus_three_values none _).2.2.1 ⟨none, true⟩ rfl,
   (checkApiStatus_three_values none _).2.2.1
     ⟨some ⟨503, .object [("detail", .string "down")]⟩, true⟩ rfl⟩

/-- C7: with a file selected, `handleSubmit` issues exactly one network call,
however the request settles: a POST to `API_URL` followed by `/predict/`
whose form data is the single field `file` holding the selected file; and
`API_URL` is the configured `VITE_API_URL`, or `http://localhost:8000` when
that is unset. -/
theorem submit_issues_one_post (env : Option String) (st : FormState) (file : File)
    (axiosPost : String → List (String × File) → List (String × String) → Settled)
    (hfile : st.file = some file) :
    (handleSubmit env st axiosPost).trace.filter Effect.isNetworkCall =
        [.post (API_URL env ++ "/predict/") [("file", file)]
          [("Content-Type", "multipart/form-data")]] ∧
      API_URL none = "http://localhost:8000" ∧
      ∀ url : String, url ≠ "" → API_URL (some url) = url := by
  refine ⟨?_, rfl, ?_⟩
  · cases hpost : axiosPost (API_URL env ++ "/predict/") [("file", file)]
        [("Content-Type", "multipart/form-data")] with
    | resolved response =>
      rw [handleSubmit_resolved env st file axiosPost response hfile hpost]
      simp [Effect.isNetworkCall, submitRequest]
    | rejected error =>
      rw [handleSubmit_rejected env st file axiosPost error hfile hpost]
      cases catchMessage error <;> simp [Effect.isNetworkCall, submitRequest]
  · intro url hne
    simp [API_URL, hne]

theorem submit_issues_one_post_witness :
    (handleSubmit (some "https://api.example.org") ⟨some ⟨"ecg.png", "image/png", 2048⟩, none⟩
        (fun _ _ _ => .rejected ⟨none, true⟩)).trace.filter Effect.isNetworkCall =
      [.post "https://api.example.org/predict/" [("file", ⟨"ecg.png", "image/png", 2048⟩)]
        [("Content-Type", "multipart/form-data")]] :=
  (submit_issues_one_post (some "https://api.example.org")
    ⟨some ⟨"ecg.png", "image/png", 2048⟩, none⟩ ⟨"ecg.png", "image/png", 2048⟩
    (fun _ _ _ => .rejected ⟨none, true⟩) rfl).1

/-- C8: `getClassFullName` gives the six names of the fixed enumeration, and
the list `arrhythmiaTypes` of the About page holds exactly the six codes, each
once, each with the name `getClassFullName` gives. -/
theorem class_code_table :
    getClassFullName "N" = "Normal beat" ∧
      getClassFullName "V" = "Premature ventricular contraction" ∧
      getClassFullName "F" = "Fusion of ventricular and normal beat" ∧
      getClassFullName "S" = "Supraventricular premature beat" ∧
      getClassFullName "Q" = "Unclassifiable beat" ∧
      getClassFullName "M" = "Myocardial infarction" ∧
      (arrhythmiaTypes.map fun t => t.code).Perm ["N", "V", "F", "S", "Q", "M"] ∧
      (arrhythmiaTypes.map fun t => t.code).Nodup ∧
      ∀ t ∈ arrhythmiaTypes, getClassFullName t.code = t.name := by
  refine ⟨by decide, by decide, by decide, by decide, by decide, by decide, by decide,
    by decide, ?_⟩
  intro t ht
  simp only [arrhythmiaTypes, List.mem_cons, List.mem_singleton, List.not_mem_nil,
    or_false] at ht
  rcases ht with rfl | rfl | rfl | rfl | rfl | rfl <;> decide

/-! ### Arithmetic of the number model -/

theorem log2Aux_spec (fuel n : Nat) (hfuel : n ≤ fuel) (hn : n ≠ 0) :
    2 ^ log2Aux fuel n ≤ n ∧ n < 2 ^ (log2Aux fuel n + 1) := by
  induction fuel generalizing n with
  | zero => omega
  | succ fuel ih =>
    unfold log2Aux
    by_cases h2 : n < 2
    · simp only [h2, if_true]
      omega
    · simp only [h2, if_false]
      have h := ih (n / 2) (by omega) (by omega)
      rw [pow_succ, pow_succ (n := log2Aux fuel (n / 2) + 1)]
      omega

theorem log2_spec (n : Nat) (hn : n ≠ 0) : 2 ^ log2 n ≤ n ∧ n < 2 ^ (log2 n + 1) :=
  log2Aux_spec n n le_rfl hn

theorem roundHalfEven_near (num den : Nat) (hden : 0 < den) :
    2 * (roundHalfEven num den * den) ≤ 2 * num + den ∧
      2 * num ≤ 2 * (roundHalfEven num den * den) + den := by
  have hdm := Nat.div_add_mod num den
  have hlt := Nat.mod_lt num hden
  have hmul : den * (num / den) = num / den * den := Nat.mul_comm _ _
  have hsucc : (num / den + 1) * den = num / den * den + den := Nat.succ_mul _ _
  unfold roundHalfEven
  simp only
  split_ifs <;> omega

theorem nearestScaled_near (num den f : Nat) (hden : 0 < den) :
    2 * den * nearestScaled num den f ≤ 2 * num * 10 ^ f + den ∧
      2 * num * 10 ^ f + den < 2 * den * (nearestScaled num den f + 1) := by
  unfold nearestScaled
  constructor
  · exact Nat.mul_div_le _ _
  · exact Nat.lt_mul_div_succ _ (by omega)

theorem two_zpow_split (k : Int) :
    (2 : ℚ) ^ k = (2 : ℚ) ^ k.toNat / (2 : ℚ) ^ (-k).toNat := by
  rcases le_total 0 k with hk | hk
  · have h1 : (-k).toNat = 0 := by omega
    have h2 : ((k.toNat : Int)) = k := Int.toNat_of_nonneg hk
    rw [h1, pow_zero, div_one, ← zpow_natCast, h2]
  · have h1 : k.toNat = 0 := by omega
    have h2 : (((-k).toNat : Int)) = -k := Int.toNat_of_nonneg (by omega)
    rw [h1, pow_zero, one_div, ← zpow_natCast, h2, zpow_neg, inv_inv]

theorem floorLog2_le (num den : Nat) (hnum : num ≠ 0) (hden : den ≠ 0) :
    (2 : ℚ) ^ floorLog2 num den ≤ (num : ℚ) / den := by
  have hdenq : (0 : ℚ) < den := by exact_mod_cast Nat.pos_of_ne_zero hden
  have hp : ∀ n : Nat, (0 : ℚ) < 2 ^ n := fun n => by positivity
  unfold floorLog2
  simp only
  split_ifs with hc
  · rw [two_zpow_split, le_div_iff₀ hdenq, div_mul_eq_mul_div, div_le_iff₀ (hp _)]
    have hc2 : ((den * 2 ^ ((log2 num : Int) - (log2 den : Int)).toNat : Nat) : ℚ) ≤
        ((num * 2 ^ (-((log2 num : Int) - (log2 den : Int))).toNat : Nat) : ℚ) := by
      exact_mod_cast hc
    push_cast at hc2
    linarith
  · have ha := (log2_spec num hnum).1
    have hb := (log2_spec den hden).2
    have haq : ((2 : ℚ) ^ log2 num) ≤ num := by exact_mod_cast ha
    have hbq : (den : ℚ) ≤ 2 ^ (log2 den + 1) := by exact_mod_cast hb.le
    have hk : (log2 num : Int) - (log2 den : Int) - 1 =
        (log2 num : Int) - ((log2 den + 1 : Nat) : Int) := by push_cast; ring
    rw [hk, zpow_sub₀ (by norm_num), zpow_natCast, zpow_natCast]
    rw [div_le_div_iff₀ (hp _) hdenq]
    calc (2 : ℚ) ^ log2 num * den ≤ num * den := by
          exact mul_le_mul_of_nonneg_right haq hdenq.le
      _ ≤ num * 2 ^ (log2 den + 1) := by
          exact mul_le_mul_of_nonneg_left hbq (by positivity)

theorem roundHalfEven_scaled (num den : Nat) (hden : den ≠ 0) (e : Int) :
    |(roundHalfEven (num * 2 ^ (-e).toNat) (den * 2 ^ e.toNat) : ℚ) * 2 ^ e - (num : ℚ) / den| ≤
      2 ^ e / 2 := by
  have hdenq : (0 : ℚ) < den := by exact_mod_cast Nat.pos_of_ne_zero hden
  have hp : ∀ n : Nat, (0 : ℚ) < 2 ^ n := fun n => by positivity
  have hD : 0 < den * 2 ^ e.toNat := Nat.mul_pos (Nat.pos_of_ne_zero hden) (by positivity)
  obtain ⟨h1, h2⟩ := roundHalfEven_near (num * 2 ^ (-e).toNat) (den * 2 ^ e.toNat) hD
  set r := roundHalfEven (num * 2 ^ (-e).toNat) (den * 2 ^ e.toNat) with hr
  have h1q : (2 : ℚ) * (r * (den * 2 ^ e.toNat)) ≤ 2 * (num * 2 ^ (-e).toNat) + den * 2 ^ e.toNat := by
    exact_mod_cast h1
  have h2q : (2 : ℚ) * (num * 2 ^ (-e).toNat) ≤ 2 * (r * (den * 2 ^ e.toNat)) + den * 2 ^ e.toNat := by
    exact_mod_cast h2
  rw [two_zpow_split e]
  set A : ℚ := 2 ^ e.toNat with hA
  set B : ℚ := 2 ^ (-e).toNat with hB
  have hApos : 0 < A := hp _
  have hBpos : 0 < B := hp _
  have key : (r : ℚ) * (A / B) - num / den = (r * (den * A) - num * B) / (den * B) := by
    field_simp
    ring
  rw [key, abs_le]
  constructor
  · rw [le_div_iff₀ (by positivity)]
    have : -(A / B / 2) * (den * B) = -(den * A) / 2 := by
      field_simp
      ring
    rw [this]
    linarith
  · rw [div_le_iff₀ (by positivity)]
    have : A / B / 2 * (den * B) = (den * A) / 2 := by
      field_simp
      ring
    rw [this]
    linarith

/-- A quotient below `128` rounds to a finite number, off by at most
`2^-47`. -/
theorem roundToDouble_small (neg : Bool) (num den : Nat) (hden : den ≠ 0)
    (hlt : (num : ℚ) / den < 128) :
    ∃ m e, roundToDouble neg num den = .fin neg m e ∧
      |(m : ℚ) * 2 ^ e - (num : ℚ) / den| ≤ 1 / 2 ^ 47 := by
  by_cases hnum : num = 0
  · exact ⟨0, 0, by simp [roundToDouble, hnum], by simp [hnum]⟩
  · have hfl : floorLog2 num den < 7 := by
      have h1 := floorLog2_le num den hnum hden
      have h2 : (2 : ℚ) ^ floorLog2 num den < 2 ^ (7 : Int) := by
        calc (2 : ℚ) ^ floorLog2 num den ≤ (num : ℚ) / den := h1
          _ < 128 := hlt
          _ = 2 ^ (7 : Int) := by norm_num
      exact (zpow_lt_zpow_iff_right₀ (by norm_num : (1 : ℚ) < 2)).1 h2
    have he : max (floorLog2 num den - 52) (-1074) ≤ (-46 : Int) := by
      apply max_le <;> omega
    refine ⟨roundHalfEven (num * 2 ^ (-(max (floorLog2 num den - 52) (-1074))).toNat)
      (den * 2 ^ (max (floorLog2 num den - 52) (-1074)).toNat),
      max (floorLog2 num den - 52) (-1074), ?_, ?_⟩
    · have hno : ¬ (971 < max (floorLog2 num den - 52) (-1074) ∨
          (max (floorLog2 num den - 52) (-1074) = 971 ∧
            2 ^ 53 ≤ roundHalfEven (num * 2 ^ (-(max (floorLog2 num den - 52) (-1074))).toNat)
              (den * 2 ^ (max (floorLog2 num den - 52) (-1074)).toNat))) := by
        intro h
        rcases h with h | ⟨h, _⟩ <;> omega
      simp only [roundToDouble, hnum, if_false, hno]
    · refine le_trans (roundHalfEven_scaled num den hden _) ?_
      have h46 : (2 : ℚ) ^ max (floorLog2 num den - 52) (-1074) ≤ 2 ^ (-46 : Int) :=
        zpow_le_zpow_right₀ (by norm_num) he
      calc (2 : ℚ) ^ max (floorLog2 num den - 52) (-1074) / 2
          ≤ 2 ^ (-46 : Int) / 2 := by
            exact div_le_div_of_nonneg_right h46 (by norm_num)
        _ = 1 / 2 ^ 47 := by norm_num

/-- The literal `100` is the number one hundred. -/
theorem ofNat_hundred : JSNumber.ofNat 100 = .fin false 7036874417766400 (-46) := by
  decide

/-- The product of a number in `[0, 1]` and the literal `100` is finite and
within `2^-47` of the exact product. -/
theorem mul_hundred_near (m : Nat) (e : Int) (h1 : finValue false m e ≤ 1) :
    ∃ p q, (JSNumber.fin false m e).mul (.ofNat 100) = .fin false p q ∧
      |finValue false p q - 100 * finValue false m e| ≤ 1 / 2 ^ 47 := by
  have hval : ((m * 7036874417766400 * 2 ^ (e + -46).toNat : Nat) : ℚ) /
      ((2 ^ (-(e + -46)).toNat : Nat) : ℚ) = 100 * finValue false m e := by
    push_cast
    rw [mul_div_assoc, ← two_zpow_split, zpow_add₀ (by norm_num)]
    simp only [finValue, Bool.false_eq_true, if_false]
    norm_num
    ring
  have hlt : ((m * 7036874417766400 * 2 ^ (e + -46).toNat : Nat) : ℚ) /
      ((2 ^ (-(e + -46)).toNat : Nat) : ℚ) < 128 := by
    rw [hval]
    linarith
  obtain ⟨p, q, hpq, hnear⟩ := roundToDouble_small false _ _ (by positivity) hlt
  refine ⟨p, q, ?_, ?_⟩
  · rw [ofNat_hundred]
    simpa [JSNumber.mul] using hpq
  · rw [hval] at hnear
    simpa [finValue] using hnear

/-! ### Decimal digits -/

theorem toDigitsCore_eq (fuel : Nat) :
    ∀ n ds, n < fuel → Nat.toDigitsCore 10 fuel n ds = Nat.toDigits 10 n ++ ds := by
  induction fuel using Nat.strong_induction_on with
  | _ fuel ih =>
    intro n ds hn
    cases fuel with
    | zero => omega
    | succ f =>
      unfold Nat.toDigits
      rw [Nat.toDigitsCore, Nat.toDigitsCore]
      by_cases h0 : n / 10 = 0
      · simp [h0]
      · simp only [h0, if_false]
        rw [ih f (by omega) (n / 10) _ (by omega), ih n (by omega) (n / 10) _ (by omega)]
        simp

theorem toDigits_lt (n : Nat) (h : n < 10) : Nat.toDigits 10 n = [Nat.digitChar n] := by
  unfold Nat.toDigits
  rw [Nat.toDigitsCore]
  have h0 : n / 10 = 0 := by omega
  have h1 : n % 10 = n := by omega
  simp [h0, h1]

theorem toDigits_ge (n : Nat) (h : 10 ≤ n) :
    Nat.toDigits 10 n = Nat.toDigits 10 (n / 10) ++ [Nat.digitChar (n % 10)] := by
  have h0 : n / 10 ≠ 0 := by omega
  conv_lhs => unfold Nat.toDigits
  rw [Nat.toDigitsCore]
  simp only [h0, if_false]
  exact toDigitsCore_eq n (n / 10) _ (by omega)

theorem toDigits_ne_nil (n : Nat) : Nat.toDigits 10 n ≠ [] := by
  by_cases h : n < 10
  · rw [toDigits_lt n h]
    simp
  · rw [toDigits_ge n (by omega)]
    simp

/-- With one fraction digit, `toFixed` prints the tens of `n`, a point, and the
last digit of `n`. -/
theorem toFixedDigits_one (n : Nat) :
    toFixedDigits n 1 = Nat.repr (n / 10) ++ "." ++ Nat.repr (n % 10) := by
  apply String.ext
  have hlast : Nat.toDigits 10 (n % 10) = [Nat.digitChar (n % 10)] :=
    toDigits_lt _ (by omega)
  by_cases h : n < 10
  · have h0 : n / 10 = 0 := by omega
    have h1 : n % 10 = n := by omega
    have hz : Nat.toDigits 10 0 = ['0'] := by decide
    simp [toFixedDigits, Nat.repr, List.asString, toDigits_lt n h, h0, h1, hz]
  · have hne := toDigits_ne_nil (n / 10)
    have hlen : 0 < (Nat.toDigits 10 (n / 10)).length := List.length_pos.2 hne
    have hpad : 1 + 1 - ((Nat.toDigits 10 (n / 10)).length + 1) = 0 := by omega
    simp [toFixedDigits, Nat.repr, List.asString, toDigits_ge n (by omega), hlast, hpad]

/-- With one fraction digit, `toFixed` of a number in `[0, 10^21)` prints the
tenths count nearest to the number. -/
theorem toFixed_one_near (p : Nat) (q : Int) (h : finValue false p q < 10 ^ 21) :
    ∃ n : Nat, (JSNumber.fin false p q).toFixed 1 =
        some (Nat.repr (n / 10) ++ "." ++ Nat.repr (n % 10)) ∧
      |(n : ℚ) / 10 - finValue false p q| ≤ 1 / 20 := by
  have hp : ∀ k : Nat, (0 : ℚ) < 2 ^ k := fun k => by positivity
  have hden : 0 < 2 ^ (-q).toNat := by positivity
  have hval : finValue false p q = ((p * 2 ^ q.toNat : Nat) : ℚ) / ((2 ^ (-q).toNat : Nat) : ℚ) := by
    simp only [finValue, Bool.false_eq_true, if_false, one_mul]
    rw [two_zpow_split q]
    push_cast
    ring
  have hbig : ¬ (10 ^ 21 * 2 ^ (-q).toNat ≤ p * 2 ^ q.toNat) := by
    intro hle
    have hle2 : ((10 ^ 21 * 2 ^ (-q).toNat : Nat) : ℚ) ≤ ((p * 2 ^ q.toNat : Nat) : ℚ) := by
      exact_mod_cast hle
    rw [hval, div_lt_iff₀ (by exact_mod_cast hden)] at h
    push_cast at hle2 h
    linarith
  refine ⟨nearestScaled (p * 2 ^ q.toNat) (2 ^ (-q).toNat) 1, ?_, ?_⟩
  · simp only [JSNumber.toFixed, hbig, if_false, Bool.false_and, Bool.false_eq_true,
      toFixedDigits_one]
    rfl
  · obtain ⟨h1, h2⟩ := nearestScaled_near (p * 2 ^ q.toNat) (2 ^ (-q).toNat) 1 hden
    set n := nearestScaled (p * 2 ^ q.toNat) (2 ^ (-q).toNat) 1
    set num := p * 2 ^ q.toNat
    set den := 2 ^ (-q).toNat
    have hdq : (0 : ℚ) < den := by exact_mod_cast hden
    have h1q : (2 : ℚ) * den * n ≤ 2 * num * 10 ^ 1 + den := by exact_mod_cast h1
    have h2q : (2 : ℚ) * num * 10 ^ 1 + den < 2 * den * (n + 1) := by exact_mod_cast h2
    rw [hval]
    set x : ℚ := (num : ℚ) / den with hx
    have hnum : (num : ℚ) = x * den := by
      rw [hx]
      field_simp
    rw [hnum] at h1q h2q
    have a1 : (2 : ℚ) * n ≤ 20 * x + 1 := by
      have hmul : (den : ℚ) * (2 * n) ≤ den * (20 * x + 1) := by linarith
      exact le_of_mul_le_mul_left hmul hdq
    have a2 : (20 : ℚ) * x + 1 < 2 * n + 2 := by
      have hmul : (den : ℚ) * (20 * x + 1) < den * (2 * n + 2) := by linarith
      exact lt_of_mul_lt_mul_left hmul hdq.le
    rw [abs_le]
    constructor <;> linarith

/-! ### The display -/

set_option maxRecDepth 100000

theorem rows_getElem? (result : ClassificationResult) (i : Nat) :
    (ResultsDisplay.rows result)[i]? = (result.top_predictions[i]?).map (barRow i) := by
  simp only [ResultsDisplay.rows, List.getElem?_map, List.getElem?_enum, Option.map_map]
  rfl


/-- C9: in `ResultsDisplay` the percentage shown at each position of
`top_predictions`, for a confidence in `[0, 1]`, is the product of the
confidence and `100` (finite, within `2^-47` of the exact product) printed as
the nearest number of tenths with exactly one decimal, followed by the percent
sign; for the confidences `0.7`, `0.2`, `0.1` the three texts are `70.0%`,
`20.0%`, `10.0%`. -/
theorem percent_one_decimal :
    (∀ (result : ClassificationResult) (i : Nat) (pred : Prediction) (m : Nat) (e : Int),
      result.top_predictions[i]? = some pred →
      pred.confidence = .fin false m e → finValue false m e ≤ 1 →
      ∃ (p : Nat) (q : Int) (n : Nat),
        pred.confidence.mul (.ofNat 100) = .fin false p q ∧
        |finValue false p q - 100 * finValue false m e| ≤ 1 / 2 ^ 47 ∧
        |(n : ℚ) / 10 - finValue false p q| ≤ 1 / 20 ∧
        ((ResultsDisplay.rows result)[i]?).map (fun row => row.percent) =
          some (some (Nat.repr (n / 10) ++ "." ++ Nat.repr (n % 10) ++ "%"))) ∧
      (ResultsDisplay.rows sampleResult).map (fun row => row.percent) =
        [some "70.0%", some "20.0%", some "10.0%"] := by
  refine ⟨?_, by decide⟩
  intro result i pred m e hi hc h1
  obtain ⟨p, q, hmul, hnear⟩ := mul_hundred_near m e h1
  have hsmall : finValue false p q < 10 ^ 21 := by
    have h2 := (abs_le.1 hnear).2
    have h3 : (1 : ℚ) / 2 ^ 47 ≤ 1 := by norm_num
    have h4 : (101 : ℚ) < 10 ^ 21 := by norm_num
    linarith
  obtain ⟨n, hfix, hn⟩ := toFixed_one_near p q hsmall
  refine ⟨p, q, n, ?_, hnear, hn, ?_⟩
  · rw [hc, hmul]
  · simp only [rows_getElem?, hi, Option.map_some', barRow, percentText, hc, hmul, hfix]

theorem percent_one_decimal_witness :
    ∃ (p : Nat) (q : Int) (n : Nat),
      (JSNumber.fin false 6305039478318694 (-53)).mul (.ofNat 100) = .fin false p q ∧
      |finValue false p q - 100 * finValue false 6305039478318694 (-53)| ≤ 1 / 2 ^ 47 ∧
      |(n : ℚ) / 10 - finValue false p q| ≤ 1 / 20 ∧
      ((ResultsDisplay.rows sampleResult)[0]?).map (fun row => row.percent) =
        some (some (Nat.repr (n / 10) ++ "." ++ Nat.repr (n % 10) ++ "%")) :=
  percent_one_decimal.1 sampleResult 0
    ⟨"N", "Normal beat", .fin false 6305039478318694 (-53)⟩
    6305039478318694 (-53) (by rfl) rfl (by norm_num [finValue])

/-- C10: the display keeps the order of `top_predictions`: the rows of
`ResultsDisplay`, the items of the Results page and the label, data and
colour arrays of the pie chart have the length of `top_predictions`, and the
element at each position comes from the prediction at that position, whatever
the order of the confidences; a result that is not sorted is shown in the
order received. -/
theorem display_keeps_order (result : ClassificationResult) :
    (ResultsDisplay.rows result).length = result.top_predictions.length ∧
      (∀ i : Nat, (ResultsDisplay.rows result)[i]? =
        (result.top_predictions[i]?).map (barRow i)) ∧
      (Results.rows result).length = result.top_predictions.length ∧
      (∀ i : Nat, (Results.rows result)[i]? = (result.top_predictions[i]?).map listRow) ∧
      (∃ cd, chartData (some result) = some cd ∧
        cd.labels.length = result.top_predictions.length ∧
        cd.data.length = result.top_predictions.length ∧
        cd.backgroundColor.length = result.top_predictions.length ∧
        cd.borderColor.length = result.top_predictions.length ∧
        ∀ i : Nat,
          cd.labels[i]? = (result.top_predictions[i]?).map predictionText ∧
          cd.data[i]? =
            (result.top_predictions[i]?).map (fun pred => pred.confidence.mul (.ofNat 100)) ∧
          cd.backgroundColor[i]? =
            (result.top_predictions[i]?).map (fun pred => chartColors.lookup pred.class) ∧
          cd.borderColor[i]? =
            (result.top_predictions[i]?).map
              (fun pred => chartBorderColors.lookup pred.class)) ∧
      (ResultsDisplay.rows unsortedResult).map (fun row => (row.code, row.percent)) =
        [("S", some "10.0%"), ("V", some "70.0%"), ("N", some "20.0%")] ∧
      (Results.rows unsortedResult).map (fun row => row.text) =
        ["S: Supraventricular premature beat", "V: Premature ventricular contraction",
          "N: Normal beat"] ∧
      (chartData (some unsortedResult)).map (fun cd => cd.labels) =
        some ["S: Supraventricular premature beat", "V: Premature ventricular contraction",
          "N: Normal beat"] := by
  refine ⟨?_, ?_, ?_, ?_, ?_, by decide, by decide, by decide⟩
  · simp [ResultsDisplay.rows]
  · exact rows_getElem? result
  · simp [Results.rows]
  · intro i
    simp [Results.rows]
  · refine ⟨_, rfl, ?_, ?_, ?_, ?_, ?_⟩
    · simp
    · simp
    · simp
    · simp
    · intro i
      simp

/-! ### The upload form, continued -/

theorem handleSubmit_network_calls (env : Option String) (st : FormState) (file : File)
    (axiosPost : String → List (String × File) → List (String × String) → Settled)
    (hfile : st.file = some file) :
    (handleSubmit env st axiosPost).trace.filter Effect.isNetworkCall =
      [submitRequest env file] := by
  cases hpost : axiosPost (API_URL env ++ "/predict/") [("file", file)]
      [("Content-Type", "multipart/form-data")] with
  | resolved response =>
    rw [handleSubmit_resolved env st file axiosPost response hfile hpost]
    simp [Effect.isNetworkCall, submitRequest]
  | rejected error =>
    rw [handleSubmit_rejected env st file axiosPost error hfile hpost]
    cases catchMessage error <;> simp [Effect.isNetworkCall, submitRequest]

/-- The handler `handleSubmit` is its part before the `await` followed by its
part after it. -/
theorem handleSubmit_eq_start_resume (env : Option String) (st : FormState) (file : File)
    (axiosPost : String → List (String × File) → List (String × String) → Settled)
    (hfile : st.file = some file) :
    handleSubmit env st axiosPost =
      ⟨(handleSubmitStart env st).1 ++
          (handleSubmitResume (axiosPost (API_URL env ++ "/predict/") [("file", file)]
            [("Content-Type", "multipart/form-data")])).trace,
        (handleSubmitResume (axiosPost (API_URL env ++ "/predict/") [("file", file)]
          [("Content-Type", "multipart/form-data")])).completion⟩ := by
  cases hpost : axiosPost (API_URL env ++ "/predict/") [("file", file)]
      [("Content-Type", "multipart/form-data")] with
  | resolved response =>
    rw [handleSubmit_resolved env st file axiosPost response hfile hpost]
    simp [handleSubmitStart, handleSubmitResume, hfile]
  | rejected error =>
    rw [handleSubmit_rejected env st file axiosPost error hfile hpost]
    cases hmsg : catchMessage error <;>
      simp [handleSubmitStart, handleSubmitResume, hfile, hmsg]

/-- C11: a selected or dropped file whose MIME type starts with `image/` is
accepted whatever its size: the file state becomes that file, a preview read
is started, `onError` is not called, and `handleSubmit` then posts that
file. -/
theorem image_accepted_any_size (st : FormState) (f : File) (rest : List File)
    (h : startsWith f.type "image/" = true) :
    handleFileChange st (f :: rest) = ({ st with file := some f }, [.readAsDataURL f]) ∧
      handleDrop st (some (f :: rest)) =
        ({ st with file := some f },
          [.preventDefault, .stopPropagation, .readAsDataURL f]) ∧
      ∀ (env : Option String)
        (axiosPost : String → List (String × File) → List (String × String) → Settled),
        (handleSubmit env (handleFileChange st (f :: rest)).1 axiosPost).trace.filter
            Effect.isNetworkCall = [submitRequest env f] ∧
          (handleSubmit env (handleDrop st (some (f :: rest))).1 axiosPost).trace.filter
            Effect.isNetworkCall = [submitRequest env f] := by
  have h1 : handleFileChange st (f :: rest) =
      ({ st with file := some f }, [.readAsDataURL f]) := by
    simp [handleFileChange, h]
  have h2 : handleDrop st (some (f :: rest)) =
      ({ st with file := some f },
        [.preventDefault, .stopPropagation, .readAsDataURL f]) := by
    simp [handleDrop, h]
  refine ⟨h1, h2, fun env axiosPost => ⟨?_, ?_⟩⟩
  · rw [h1]
    exact handleSubmit_network_calls env _ f axiosPost rfl
  · rw [h2]
    exact handleSubmit_network_calls env _ f axiosPost rfl

theorem image_accepted_any_size_witness :
    (handleFileChange FormState.init [⟨"scan.png", "image/png", 52428800⟩] =
        (⟨some ⟨"scan.png", "image/png", 52428800⟩, none⟩,
          [.readAsDataURL ⟨"scan.png", "image/png", 52428800⟩])) ∧
      (handleDrop FormState.init (some [⟨"empty.gif", "image/gif", 0⟩]) =
        (⟨some ⟨"empty.gif", "image/gif", 0⟩, none⟩,
          [.preventDefault, .stopPropagation,
            .readAsDataURL ⟨"empty.gif", "image/gif", 0⟩])) :=
  ⟨(image_accepted_any_size FormState.init ⟨"scan.png", "image/png", 52428800⟩ []
      (by decide)).1,
   (image_accepted_any_size FormState.init ⟨"empty.gif", "image/gif", 0⟩ []
      (by decide)).2.1⟩

/-- C12: a resolved response whose body is truthy but has no
`top_predictions` is handed to `onResultReceived` like any other, `onError`
is not called, the Home page stores it as `result`, and rendering
`ResultsDisplay` or the Results page with it throws a TypeError at the `map`
over `top_predictions`. -/
theorem malformed_success_fails_at_render (env : Option String) (st : FormState)
    (file : File)
    (axiosPost : String → List (String × File) → List (String × String) → Settled)
    (status : Nat) (body : JSValue) (hfile : st.file = some file)
    (hpost : axiosPost (API_URL env ++ "/predict/") [("file", file)]
      [("Content-Type", "multipart/form-data")] = .resolved ⟨status, body⟩)
    (htruthy : body.truthy = true)
    (hlacks : body.get "top_predictions" = .ok .undefined) :
    handleSubmit env st axiosPost =
        ⟨[.preventDefault, .onLoading true, submitRequest env file,
          .onResultReceived body], .ok ()⟩ ∧
      (handleSubmit env st axiosPost).trace.filter Effect.isError = [] ∧
      (∀ h : HomeState, (Home.run h (handleSubmit env st axiosPost).trace).result = body) ∧
      (∀ (β : Type) (row : JSValue → Nat → Except JSError β),
        ResultsDisplay.render row body = .error .typeError) ∧
      ∀ (β γ : Type) (chart : JSValue → Nat → Except JSError γ)
        (row : JSValue → Nat → Except JSError β),
        Results.render chart row body = .error .typeError := by
  rw [handleSubmit_resolved env st file axiosPost _ hfile hpost]
  refine ⟨rfl, ?_, ?_, ?_, ?_⟩
  · simp [Effect.isError, submitRequest]
  · intro h
    simp [Home.run, Home.react, submitRequest, handleResultReceived, handleLoading]
  · intro β row
    simp [ResultsDisplay.render, htruthy, hlacks, JSValue.map]
  · intro β γ chart row
    have hund : JSValue.undefined.truthy = false := rfl
    simp [Results.render, JSValue.getOptional, htruthy, hlacks, JSValue.map, hund]

theorem malformed_success_fails_at_render_witness :
    handleSubmit none ⟨some ⟨"ecg.png", "image/png", 2048⟩, none⟩
        (fun _ _ _ => .resolved ⟨200, .object [("message", .string "ok")]⟩) =
        ⟨[.preventDefault, .onLoading true,
          submitRequest none ⟨"ecg.png", "image/png", 2048⟩,
          .onResultReceived (.object [("message", .string "ok")])], .ok ()⟩ ∧
      ResultsDisplay.render (fun pred _ => Except.ok pred)
        (.object [("message", .string "ok")]) = .error .typeError :=
  have h := malformed_success_fails_at_render none
    ⟨some ⟨"ecg.png", "image/png", 2048⟩, none⟩ ⟨"ecg.png", "image/png", 2048⟩
    (fun _ _ _ => .resolved ⟨200, .object [("message", .string "ok")]⟩) 200
    (.object [("message", .string "ok")]) rfl rfl rfl rfl
  ⟨h.1, h.2.2.2.1 JSValue (fun pred _ => Except.ok pred)⟩

/-- C13 as stated fails: after `handleSubmit` has run to completion with
`ecg.png` selected, on success as on failure, the file state still holds that
file. -/
theorem file_kept_after_submit :
    (Session.settle (Session.submit none sampleSession).1
        (.resolved ⟨200, sampleBody⟩)).1.form.file ≠ none ∧
      (Session.settle (Session.submit none sampleSession).1
        (.rejected ⟨none, true⟩)).1.form.file ≠ none := by
  constructor <;> decide

/-- C13, amended: the upload candidate is discarded on explicit removal only.
After `handleRemoveFile` the file and the preview are `null`; `handleSubmit`,
run to completion, leaves the form state as it was, however the request
settles. -/
theorem file_discarded_on_removal_only :
    (∀ (st : FormState) (inputMounted : Bool),
        (handleRemoveFile st inputMounted).1 = ⟨none, none⟩) ∧
      ∀ (env : Option String) (s : Session) (outcome : Settled),
        (Session.submit env s).1.form = s.form ∧
        (Session.settle (Session.submit env s).1 outcome).1.form = s.form := by
  refine ⟨fun _ _ => rfl, fun env s outcome => ?_⟩
  have h1 : (Session.submit env s).1.form = s.form := by
    unfold Session.submit handleSubmitStart
    cases s.form.file <;> rfl
  refine ⟨h1, ?_⟩
  rw [← h1]
  unfold Session.settle
  cases (Session.submit env s).1.inFlight <;> rfl

/-- When the `catch` block does not throw, a submission ends in one outcome
callback after `onLoading(true)`. -/
theorem handleSubmit_one_outcome (env : Option String) (st : FormState) (file : File)
    (axiosPost : String → List (String × File) → List (String × String) → Settled)
    (hfile : st.file = some file)
    (hok : ∀ error, axiosPost (API_URL env ++ "/predict/") [("file", file)]
      [("Content-Type", "multipart/form-data")] = .rejected error →
      ∃ msg, catchMessage error = .ok msg) :
    ∃ outcome, outcome.isOutcome = true ∧
      (handleSubmit env st axiosPost).trace =
        [.preventDefault, .onLoading true, submitRequest env file, outcome] := by
  cases hpost : axiosPost (API_URL env ++ "/predict/") [("file", file)]
      [("Content-Type", "multipart/form-data")] with
  | resolved response =>
    rw [handleSubmit_resolved env st file axiosPost response hfile hpost]
    exact ⟨.onResultReceived response.data, rfl, rfl⟩
  | rejected error =>
    rw [handleSubmit_rejected env st file axiosPost error hfile hpost]
    obtain ⟨msg, hmsg⟩ := hok error hpost
    rw [hmsg]
    exact ⟨.onError msg, rfl, rfl⟩

/-- C14: a submission whose POST is rejected with a response that has a `null`
body, or no body, ends in no outcome at all: after `onLoading(true)` and the
request neither `onResultReceived` nor `onError` is called, and the handler
ends with a TypeError. -/
theorem submission_without_outcome :
    (handleSubmit none sampleSession.form
        (fun _ _ _ => .rejected ⟨some ⟨500, .null⟩, true⟩)).trace.filter
        Effect.isOutcome = [] ∧
      (handleSubmit none sampleSession.form
        (fun _ _ _ => .rejected ⟨some ⟨500, .null⟩, true⟩)).completion =
        .error .typeError ∧
      (handleSubmit none sampleSession.form
        (fun _ _ _ => .rejected ⟨some ⟨502, .undefined⟩, true⟩)).trace.filter
        Effect.isOutcome = [] ∧
      (handleSubmit none sampleSession.form
        (fun _ _ _ => .rejected ⟨some ⟨502, .undefined⟩, true⟩)).completion =
        .error .typeError ∧
      (handleSubmit none sampleSession.form
        (fun _ _ _ => .rejected ⟨some ⟨500, .null⟩, true⟩)).trace.filter
        Effect.isLoading = [.onLoading true] := by
  refine ⟨rfl, rfl, rfl, rfl, rfl⟩

/-- C16 as stated fails: with `ecg.png` selected and one request outstanding,
the submit control is not disabled, and a further `handleSubmit` issues a
second POST, so two requests are in flight. -/
theorem second_submit_issues_second_post :
    submitDisabled (Session.submit none sampleSession).1.form = false ∧
      (Session.submit none (Session.submit none sampleSession).1).2.filter
        Effect.isNetworkCall =
        [submitRequest none ⟨"ecg.png", "image/png", 2048⟩] ∧
      (Session.submit none (Session.submit none sampleSession).1).1.inFlight =
        [submitRequest none ⟨"ecg.png", "image/png", 2048⟩,
          submitRequest none ⟨"ecg.png", "image/png", 2048⟩] := by
  refine ⟨rfl, rfl, rfl⟩

theorem submitTimes_form (env : Option String) (s : Session) (n : Nat) :
    (Session.submitTimes env s n).form = s.form := by
  induction n with
  | zero => rfl
  | succ n ih =>
    rw [← ih]
    simp only [Session.submitTimes]
    unfold Session.submit handleSubmitStart
    cases (Session.submitTimes env s n).form.file <;> rfl

/-- C16, amended: the submit control is disabled exactly when no file is
selected and does not depend on an outstanding request.  With a file selected
the control is enabled before and after `handleSubmit` has called
`onLoading(true)`, every further `handleSubmit` issues another POST, and after
`n` invocations with none answered `n` more requests are in flight. -/
theorem submit_control_follows_file_only :
    (∀ st : FormState, submitDisabled st = true ↔ st.file = none) ∧
      ∀ (env : Option String) (s : Session) (file : File), s.form.file = some file →
        submitDisabled s.form = false ∧
        submitDisabled (Session.submit env s).1.form = false ∧
        (Session.submit env s).2 =
          [.preventDefault, .onLoading true, submitRequest env file] ∧
        (Session.submit env s).1.inFlight = s.inFlight ++ [submitRequest env file] ∧
        ∀ n : Nat, (Session.submitTimes env s n).inFlight =
          s.inFlight ++ List.replicate n (submitRequest env file) := by
  refine ⟨?_, ?_⟩
  · intro st
    simp [submitDisabled]
  · intro env s file hfile
    have hstep : ∀ t : Session, t.form.file = some file →
        Session.submit env t =
          ({ t with inFlight := t.inFlight ++ [submitRequest env file] },
            [.preventDefault, .onLoading true, submitRequest env file]) := by
      intro t ht
      simp [Session.submit, handleSubmitStart, ht]
    refine ⟨by simp [submitDisabled, hfile], ?_, ?_, ?_, ?_⟩
    · rw [hstep s hfile]
      simp [submitDisabled, hfile]
    · rw [hstep s hfile]
    · rw [hstep s hfile]
    · intro n
      induction n with
      | zero => simp [Session.submitTimes]
      | succ n ih =>
        have hform : (Session.submitTimes env s n).form.file = some file := by
          rw [submitTimes_form, hfile]
        simp only [Session.submitTimes]
        rw [hstep _ hform]
        simp [ih, List.replicate_succ', List.append_assoc]

theorem submit_control_follows_file_only_witness :
    submitDisabled (Session.submit none sampleSession).1.form = false ∧
      (Session.submitTimes none sampleSession 3).inFlight =
        [] ++ List.replicate 3 (submitRequest none ⟨"ecg.png", "image/png", 2048⟩) :=
  have h := submit_control_follows_file_only.2 none sampleSession
    ⟨"ecg.png", "image/png", 2048⟩ rfl
  ⟨h.2.1, h.2.2.2.2 3⟩

/-- C20: with no file selected, `handleSubmit` calls `onError` once with the
text asking to select a file and does nothing else: no POST, no `onLoading`,
no `onResultReceived`; the file is `null` in the initial state and after
`handleRemoveFile`. -/
theorem no_file_submit_rejected (env : Option String) (st : FormState)
    (axiosPost : String → List (String × File) → List (String × String) → Settled)
    (hfile : st.file = none) :
    handleSubmit env st axiosPost =
        ⟨[.preventDefault, .onError (.string "Please select a file to upload.")],
          .ok ()⟩ ∧
      (handleSubmit env st axiosPost).trace.filter Effect.isError =
        [.onError (.string "Please select a file to upload.")] ∧
      (handleSubmit env st axiosPost).trace.filter Effect.isNetworkCall = [] ∧
      (handleSubmit env st axiosPost).trace.filter Effect.isLoading = [] ∧
      (handleSubmit env st axiosPost).trace.filter Effect.isResult = [] ∧
      FormState.init.file = none ∧
      ∀ (st0 : FormState) (inputMounted : Bool),
        (handleRemoveFile st0 inputMounted).1.file = none := by
  have h : handleSubmit env st axiosPost =
      ⟨[.preventDefault, .onError (.string "Please select a file to upload.")],
        .ok ()⟩ := by
    simp [handleSubmit, hfile]
  rw [h]
  exact ⟨rfl, rfl, rfl, rfl, rfl, rfl, fun _ _ => rfl⟩

theorem no_file_submit_rejected_witness :
    handleSubmit none (handleRemoveFile sampleSession.form true).1
        (fun _ _ _ => .resolved ⟨200, sampleBody⟩) =
      ⟨[.preventDefault, .onError (.string "Please select a file to upload.")],
        .ok ()⟩ :=
  (no_file_submit_rejected none (handleRemoveFile sampleSession.form true).1
    (fun _ _ _ => .resolved ⟨200, sampleBody⟩) rfl).1

/-! ### The Home page, the health check and the Results page -/

/-- A submission that ends in its outcome callback leaves at most one of
`isLoading`, `result ≠ null`, `error ≠ null` set, whatever the page state
before it. -/
theorem marks_after_submission (h : HomeState) (request outcome : Effect)
    (hreq : request.isNetworkCall = true) (hout : outcome.isOutcome = true) :
    (Home.run h [.preventDefault, .onLoading true, request, outcome]).marks ≤ 1 := by
  have hn : JSValue.null.isNull = true := rfl
  cases request <;> simp [Effect.isNetworkCall] at hreq
  cases outcome <;> simp [Effect.isOutcome] at hout
  · rename_i msg
    simp only [Home.run, List.foldl, Home.react, handleLoading, handleError, if_true,
      HomeState.marks, hn]
    cases msg.isNull <;> simp
  · rename_i data
    simp only [Home.run, List.foldl, Home.react, handleLoading, handleResultReceived,
      if_true, HomeState.marks, hn]
    cases data.isNull <;> simp

/-- C15: after a successful submission, dropping a file that is not an image
calls `onError` without `onLoading`, and `handleError` keeps the stored
result: the Home page then holds a result and an error together, both shown. -/
theorem result_and_error_together :
    staleResultState.isLoading = false ∧
      staleResultState.result.isNull = false ∧
      staleResultState.error.isNull = false ∧
      staleResultState.result.truthy = true ∧
      staleResultState.error.truthy = true ∧
      staleResultState.marks = 2 := by
  refine ⟨rfl, rfl, rfl, rfl, by decide, rfl⟩

/-- A resolved health response whose body is neither `null` nor `undefined`
and whose `status` is not the string `healthy` gives `Degraded`. -/
theorem checkApiStatus_degraded (env : Option String) (axiosGet : String → Settled)
    (status : Nat) (body value : JSValue)
    (hget : axiosGet (API_URL env ++ "/health") = .resolved ⟨status, body⟩)
    (hbody : body.get "status" = .ok value)
    (hvalue : value.strictEqString "healthy" = false) :
    (checkApiStatus env axiosGet).result = .ok "Degraded" := by
  simp [checkApiStatus, hget, hbody, hvalue]

/-- C17: a resolved health response whose body is `null` gives `Offline`, not
`Degraded`: reading `status` throws inside the `try` block and the `catch`
block answers. -/
theorem null_health_body_offline :
    (checkApiStatus none (fun _ => .resolved ⟨200, .null⟩)).result = .ok "Offline" ∧
      (checkApiStatus none (fun _ => .resolved ⟨200, .null⟩)).result ≠ .ok "Degraded" ∧
      (checkApiStatus none (fun _ => .resolved ⟨200, .object []⟩)).result =
        .ok "Degraded" ∧
      (checkApiStatus none
        (fun _ => .resolved ⟨200, .object [("status", .bool true)]⟩)).result =
        .ok "Degraded" ∧
      (checkApiStatus none (fun _ => .resolved ⟨200, .string ""⟩)).result =
        .ok "Degraded" := by
  refine ⟨rfl, ?_, rfl, rfl, rfl⟩
  intro h
  have h2 : (Except.ok "Offline" : Except JSError String) = .ok "Degraded" := h
  injection h2 with h3
  exact absurd h3 (by decide)

/-- On the six recognized codes the badge of the Results page, the function
`getBadgeClasses` and the colour of the About page agree. -/
theorem badge_agrees_on_six :
    ∀ t ∈ arrhythmiaTypes,
      Results.badgeClasses t.code = t.color ∧ getBadgeClasses t.code = t.color := by
  intro t ht
  simp only [arrhythmiaTypes, List.mem_cons, List.mem_singleton, List.not_mem_nil,
    or_false] at ht
  rcases ht with rfl | rfl | rfl | rfl | rfl | rfl <;> decide

/-- C19: for the class code `X`, outside the six, `getBadgeClasses` gives the
gray style but the Results page gives the orange style of class `V` and the
explanation of class `V`. -/
theorem unknown_class_shown_as_V :
    getBadgeClasses "X" = "bg-gray-100 text-gray-800" ∧
      Results.badgeClasses "X" = "bg-orange-100 text-orange-800" ∧
      Results.badgeClasses "X" ≠ getBadgeClasses "X" ∧
      Results.badgeClasses "X" = Results.badgeClasses "V" ∧
      Results.explanation "X" = Results.explanation "V" ∧
      Results.explanation "X" =
        "The ECG shows premature ventricular contractions, which are early beats originating from the ventricles." := by
  refine ⟨by decide, by decide, by decide, by decide, by decide, by decide⟩

/-! ### Two fraction digits -/

/-- With two fraction digits, `toFixed` prints the hundreds of `n`, a point,
and the last two digits of `n`. -/
theorem toFixedDigits_two (n : Nat) :
    toFixedDigits n 2 =
      Nat.repr (n / 100) ++ "." ++
        String.mk [Nat.digitChar (n / 10 % 10), Nat.digitChar (n % 10)] := by
  apply String.ext
  have hz : Nat.toDigits 10 0 = ['0'] := by decide
  have hd0 : Nat.digitChar 0 = '0' := by decide
  by_cases h10 : n < 10
  · have h0 : n / 100 = 0 := by omega
    have h1 : n / 10 % 10 = 0 := by omega
    have h2 : n % 10 = n := by omega
    simp [toFixedDigits, Nat.repr, List.asString, toDigits_lt n h10, h0, h1, h2, hz, hd0]
  · by_cases h100 : n < 100
    · have h0 : n / 100 = 0 := by omega
      have h1 : n / 10 % 10 = n / 10 := by omega
      have h2 : Nat.toDigits 10 (n / 10) = [Nat.digitChar (n / 10)] :=
        toDigits_lt _ (by omega)
      simp [toFixedDigits, Nat.repr, List.asString, toDigits_ge n (by omega), h2, h0, h1, hz]
    · have hdiv : n / 10 / 10 = n / 100 := by omega
      have hne := toDigits_ne_nil (n / 100)
      have hlen : 0 < (Nat.toDigits 10 (n / 100)).length := List.length_pos.2 hne
      have hpad : 2 + 1 - ((Nat.toDigits 10 (n / 100)).length + 1 + 1) = 0 := by omega
      simp [toFixedDigits, Nat.repr, List.asString, toDigits_ge n (by omega),
        toDigits_ge (n / 10) (by omega), hdiv, hpad]

/-- With two fraction digits, `toFixed` of a number in `[0, 10^21)` prints the
hundredths count nearest to the number. -/
theorem toFixed_two_near (p : Nat) (q : Int) (h : finValue false p q < 10 ^ 21) :
    ∃ n : Nat, (JSNumber.fin false p q).toFixed 2 =
        some (Nat.repr (n / 100) ++ "." ++
          String.mk [Nat.digitChar (n / 10 % 10), Nat.digitChar (n % 10)]) ∧
      |(n : ℚ) / 100 - finValue false p q| ≤ 1 / 200 := by
  have hden : 0 < 2 ^ (-q).toNat := by positivity
  have hval : finValue false p q = ((p * 2 ^ q.toNat : Nat) : ℚ) / ((2 ^ (-q).toNat : Nat) : ℚ) := by
    simp only [finValue, Bool.false_eq_true, if_false, one_mul]
    rw [two_zpow_split q]
    push_cast
    ring
  have hbig : ¬ (10 ^ 21 * 2 ^ (-q).toNat ≤ p * 2 ^ q.toNat) := by
    intro hle
    have hle2 : ((10 ^ 21 * 2 ^ (-q).toNat : Nat) : ℚ) ≤ ((p * 2 ^ q.toNat : Nat) : ℚ) := by
      exact_mod_cast hle
    rw [hval, div_lt_iff₀ (by exact_mod_cast hden)] at h
    push_cast at hle2 h
    linarith
  refine ⟨nearestScaled (p * 2 ^ q.toNat) (2 ^ (-q).toNat) 2, ?_, ?_⟩
  · simp only [JSNumber.toFixed, hbig, if_false, Bool.false_and, Bool.false_eq_true,
      toFixedDigits_two]
    rfl
  · obtain ⟨h1, h2⟩ := nearestScaled_near (p * 2 ^ q.toNat) (2 ^ (-q).toNat) 2 hden
    set n := nearestScaled (p * 2 ^ q.toNat) (2 ^ (-q).toNat) 2
    set num := p * 2 ^ q.toNat
    set den := 2 ^ (-q).toNat
    have hdq : (0 : ℚ) < den := by exact_mod_cast hden
    have h1q : (2 : ℚ) * den * n ≤ 2 * num * 10 ^ 2 + den := by exact_mod_cast h1
    have h2q : (2 : ℚ) * num * 10 ^ 2 + den < 2 * den * (n + 1) := by exact_mod_cast h2
    rw [hval]
    set x : ℚ := (num : ℚ) / den with hx
    have hnum : (num : ℚ) = x * den := by
      rw [hx]
      field_simp
    rw [hnum] at h1q h2q
    have a1 : (2 : ℚ) * n ≤ 200 * x + 1 := by
      have hmul : (den : ℚ) * (2 * n) ≤ den * (200 * x + 1) := by linarith
      exact le_of_mul_le_mul_left hmul hdq
    have a2 : (200 : ℚ) * x + 1 < 2 * n + 2 := by
      have hmul : (den : ℚ) * (200 * x + 1) < den * (2 * n + 2) := by linarith
      exact lt_of_mul_lt_mul_left hmul hdq.le
    rw [abs_le]
    constructor <;> linarith

/-- C18 as stated fails: for the confidences `0.7`, `0.2`, `0.1` the list of
the Results page does not show `70.0%`, `20.0%`, `10.0%`, and its texts are
not those of `ResultsDisplay`. -/
theorem results_page_not_one_decimal :
    (Results.rows sampleResult).map (fun row => row.percent) ≠
        [some "70.0%", some "20.0%", some "10.0%"] ∧
      (Results.rows sampleResult).map (fun row => row.percent) ≠
        (ResultsDisplay.rows sampleResult).map (fun row => row.percent) := by
  constructor <;> decide

/-- C18, amended: on the Results page the percentage at each position of
`top_predictions`, for a confidence in `[0, 1]`, is the product of the
confidence and `100` printed as the nearest number of hundredths with exactly
two decimals, followed by the percent sign; for the confidences `0.7`, `0.2`,
`0.1` the list shows `70.00%`, `20.00%`, `10.00%`, where `ResultsDisplay`
shows `70.0%`, `20.0%`, `10.0%`. -/
theorem results_page_two_decimals :
    (∀ (result : ClassificationResult) (i : Nat) (pred : Prediction) (m : Nat) (e : Int),
      result.top_predictions[i]? = some pred →
      pred.confidence = .fin false m e → finValue false m e ≤ 1 →
      ∃ (p : Nat) (q : Int) (n : Nat),
        pred.confidence.mul (.ofNat 100) = .fin false p q ∧
        |finValue false p q - 100 * finValue false m e| ≤ 1 / 2 ^ 47 ∧
        |(n : ℚ) / 100 - finValue false p q| ≤ 1 / 200 ∧
        ((Results.rows result)[i]?).map (fun row => row.percent) =
          some (some (Nat.repr (n / 100) ++ "." ++
            String.mk [Nat.digitChar (n / 10 % 10), Nat.digitChar (n % 10)] ++ "%"))) ∧
      (Results.rows sampleResult).map (fun row => row.percent) =
        [some "70.00%", some "20.00%", some "10.00%"] ∧
      (ResultsDisplay.rows sampleResult).map (fun row => row.percent) =
        [some "70.0%", some "20.0%", some "10.0%"] := by
  refine ⟨?_, by decide, by decide⟩
  intro result i pred m e hi hc h1
  obtain ⟨p, q, hmul, hnear⟩ := mul_hundred_near m e h1
  have hsmall : finValue false p q < 10 ^ 21 := by
    have h2 := (abs_le.1 hnear).2
    have h3 : (1 : ℚ) / 2 ^ 47 ≤ 1 := by norm_num
    have h4 : (101 : ℚ) < 10 ^ 21 := by norm_num
    linarith
  obtain ⟨n, hfix, hn⟩ := toFixed_two_near p q hsmall
  refine ⟨p, q, n, ?_, hnear, hn, ?_⟩
  · rw [hc, hmul]
  · simp only [Results.rows, List.getElem?_map, hi, Option.map_some', listRow, percentText,
      hc, hmul, hfix]

theorem results_page_two_decimals_witness :
    ∃ (p : Nat) (q : Int) (n : Nat),
      (JSNumber.fin false 6305039478318694 (-53)).mul (.ofNat 100) = .fin false p q ∧
      |finValue false p q - 100 * finValue false 6305039478318694 (-53)| ≤ 1 / 2 ^ 47 ∧
      |(n : ℚ) / 100 - finValue false p q| ≤ 1 / 200 ∧
      ((Results.rows sampleResult)[0]?).map (fun row => row.percent) =
        some (some (Nat.repr (n / 100) ++ "." ++
          String.mk [Nat.digitChar (n / 10 % 10), Nat.digitChar (n % 10)] ++ "%")) :=
  results_page_two_decimals.1 sampleResult 0
    ⟨"N", "Normal beat", .fin false 6305039478318694 (-53)⟩
    6305039478318694 (-53) (by rfl) rfl (by norm_num [finValue])

/-! ### The Dashboard -/

theorem checkApiStatus_result (env : Option String) (axiosGet : String → Settled) :
    ∃ v, (checkApiStatus env axiosGet).result = .ok v ∧
      (v = "Online" ∨ v = "Degraded" ∨ v = "Offline") := by
  cases hget : axiosGet (API_URL env ++ "/health") with
  | rejected error => exact ⟨"Offline", by simp [checkApiStatus, hget], by simp⟩
  | resolved response =>
    cases hstatus : response.data.get "status" with
    | error err => exact ⟨"Offline", by simp [checkApiStatus, hget, hstatus], by simp⟩
    | ok v =>
      by_cases hv : v.strictEqString "healthy" = true
      · exact ⟨"Online", by simp [checkApiStatus, hget, hstatus, hv], by simp⟩
      · exact ⟨"Degraded", by simp [checkApiStatus, hget, hstatus, hv], by simp⟩

/-- The percentages shown for the demo distribution out of 125. -/
theorem demo_percentages (modelAccuracy : JSNumber) (apiStatus : String) :
    distributionPercentages ⟨125, mockClassDistribution, modelAccuracy, apiStatus⟩ =
      [("N", some (.string "33.6")), ("V", some (.string "22.4")),
       ("F", some (.string "12.0")), ("S", some (.string "8.0")),
       ("M", some (.string "17.6")), ("Q", some (.string "6.4"))] := by
  have hz : (JSNumber.ofNat 125).isZero = false := by decide
  have hN : (((JSNumber.ofNat 42).div (.ofNat 125)).mul (.ofNat 100)).toFixed 1 =
      some "33.6" := by decide
  have hV : (((JSNumber.ofNat 28).div (.ofNat 125)).mul (.ofNat 100)).toFixed 1 =
      some "22.4" := by decide
  have hF : (((JSNumber.ofNat 15).div (.ofNat 125)).mul (.ofNat 100)).toFixed 1 =
      some "12.0" := by decide
  have hS : (((JSNumber.ofNat 10).div (.ofNat 125)).mul (.ofNat 100)).toFixed 1 =
      some "8.0" := by decide
  have hM : (((JSNumber.ofNat 22).div (.ofNat 125)).mul (.ofNat 100)).toFixed 1 =
      some "17.6" := by decide
  have hQ : (((JSNumber.ofNat 8).div (.ofNat 125)).mul (.ofNat 100)).toFixed 1 =
      some "6.4" := by decide
  simp only [distributionPercentages, mockClassDistribution, List.map, calculatePercentage,
    hz, hN, hV, hF, hS, hM, hQ, Option.map_some', Bool.false_eq_true, if_false]

/-- C21: however the health request settles, `fetchDashboardData` ends with
`isLoading = false`, `error = null` and the demo statistics: 125 predictions,
the six-class demo distribution, accuracy `0.945` and an API status that is
`Online`, `Degraded` or `Offline`, the value `checkApiStatus` returned; the
failure message is never set.  The demo counts sum to 125, and
`calculatePercentage` returns the number `0` whenever `total` is zero, where
the division itself would give `NaN` or an infinity. -/
theorem dashboard_loads_without_error (env : Option String) (st : DashboardState)
    (axiosGet : String → Settled) :
    (fetchDashboardData env st axiosGet).1.isLoading = false ∧
      (fetchDashboardData env st axiosGet).1.error = none ∧
      (fetchDashboardData env st axiosGet).1.stats.totalPredictions = 125 ∧
      (fetchDashboardData env st axiosGet).1.stats.classDistribution =
        [("N", 42), ("V", 28), ("F", 15), ("S", 10), ("M", 22), ("Q", 8)] ∧
      (fetchDashboardData env st axiosGet).1.stats.modelAccuracy =
        JSNumber.ofDecimal 945 1000 ∧
      ((fetchDashboardData env st axiosGet).1.stats.apiStatus = "Online" ∨
        (fetchDashboardData env st axiosGet).1.stats.apiStatus = "Degraded" ∨
        (fetchDashboardData env st axiosGet).1.stats.apiStatus = "Offline") ∧
      (checkApiStatus env axiosGet).result =
        .ok (fetchDashboardData env st axiosGet).1.stats.apiStatus ∧
      (fetchDashboardData env st axiosGet).2 = [API_URL env ++ "/health"] ∧
      (fetchDashboardData none DashboardState.init
        (fun _ => .resolved ⟨200, .object [("status", .string "healthy")]⟩)).1.stats.apiStatus =
        "Online" ∧
      (fetchDashboardData none DashboardState.init
        (fun _ => .resolved ⟨200, .object [("status", .string "starting")]⟩)).1.stats.apiStatus =
        "Degraded" ∧
      (fetchDashboardData none DashboardState.init
        (fun _ => .rejected ⟨some ⟨500, .object [("detail", .string "down")]⟩, true⟩)).1.stats.apiStatus =
        "Offline" ∧
      (fetchDashboardData none DashboardState.init
        (fun _ => .rejected ⟨none, true⟩)).1.stats.apiStatus = "Offline" ∧
      (mockClassDistribution.map Prod.snd).sum = 125 ∧
      (∀ (value : JSNumber) (neg : Bool) (e : Int),
        calculatePercentage value (.fin neg 0 e) = some (.number (.fin false 0 0))) ∧
      (∀ (neg s : Bool) (m : Nat) (e f : Int),
        (JSNumber.fin s m e).div (.fin neg 0 f) = .nan ∨
        (JSNumber.fin s m e).div (.fin neg 0 f) = .inf (xor s neg)) ∧
      distributionPercentages DashboardState.init.stats = [] ∧
      distributionPercentages (fetchDashboardData env st axiosGet).1.stats =
        [("N", some (.string "33.6")), ("V", some (.string "22.4")),
         ("F", some (.string "12.0")), ("S", some (.string "8.0")),
         ("M", some (.string "17.6")), ("Q", some (.string "6.4"))] := by
  obtain ⟨v, hv, hcases⟩ := checkApiStatus_result env axiosGet
  have hreq : (checkApiStatus env axiosGet).requests = [API_URL env ++ "/health"] := by
    cases hget : axiosGet (API_URL env ++ "/health") with
    | rejected error => simp [checkApiStatus, hget]
    | resolved response =>
      cases hstatus : response.data.get "status" <;> simp [checkApiStatus, hget, hstatus]
  have hstats : (fetchDashboardData env st axiosGet).1.stats =
      ⟨125, mockClassDistribution, .ofDecimal 945 1000, v⟩ := by
    simp [fetchDashboardData, hv]
  refine ⟨?_, ?_, ?_, ?_, ?_, ?_, ?_, ?_, rfl, rfl, rfl, rfl, by decide, ?_, ?_, rfl, ?_⟩
  · simp [fetchDashboardData]
  · simp [fetchDashboardData, hv]
  · rw [hstats]
  · rw [hstats]
    rfl
  · rw [hstats]
  · rw [hstats]
    exact hcases
  · rw [hstats, hv]
  · simp [fetchDashboardData, hreq]
  · intro value neg e
    rfl
  · intro neg s m e f
    by_cases hm : m = 0
    · left
      simp [JSNumber.div, hm]
    · right
      simp [JSNumber.div, hm]
  · rw [hstats]
    exact demo_percentages _ _

end ECG
